import Mathlib

/-!
Shallow embedding of the dendynes NES emulator core (CPU, PPU, Bus,
Cartridge, Joypad) and proofs about the behaviour its specification
claims.  Machine bytes are modelled as `Nat` with explicit `% 256` /
`&&& 0xFF`-style wrapping at the points where the Rust `u8`/`u16`
arithmetic wraps; fallible code paths (Rust panics and parser failures)
are modelled with `Option`.
-/

namespace Dendynes

/-! ## CPU status flags (`cpu/processor.rs`, bitflags `StatusFlags`)

The Rust side packs the seven semantic flags into a `u8` bitflags value;
we model the register as a record of `Bool`s plus an explicit byte
encoding `StatusFlags.bits` used whenever the byte itself is observable
(pushes to the stack). -/

structure StatusFlags where
  carry : Bool
  zero : Bool
  interrupt_disable : Bool
  decimal_mode : Bool
  break_flag : Bool
  unused : Bool
  overflow : Bool
  negative : Bool
  deriving Repr, DecidableEq

namespace StatusFlags

def bits (s : StatusFlags) : Nat :=
  (if s.carry then 0x01 else 0) +
  (if s.zero then 0x02 else 0) +
  (if s.interrupt_disable then 0x04 else 0) +
  (if s.decimal_mode then 0x08 else 0) +
  (if s.break_flag then 0x10 else 0) +
  (if s.unused then 0x20 else 0) +
  (if s.overflow then 0x40 else 0) +
  (if s.negative then 0x80 else 0)

def from_bits (b : Nat) : StatusFlags :=
  ⟨b.testBit 0, b.testBit 1, b.testBit 2, b.testBit 3,
   b.testBit 4, b.testBit 5, b.testBit 6, b.testBit 7⟩

end StatusFlags

/-! ## CPU register file (`cpu/processor.rs`, struct `CPU`)

The bus reference is not part of the register file; machine-level
operations take the whole `Machine` (defined later).  The pure
arithmetic helpers (`add_to_register_a`, `sub_from_register_a`, …)
only touch this record, exactly as their Rust counterparts only touch
`self.register_a` and `self.status`. -/

structure CPURegs where
  program_pointer : Nat
  stack_pointer : Nat
  cycles : Nat
  register_a : Nat
  register_x : Nat
  register_y : Nat
  status : StatusFlags
  deriving Repr, DecidableEq

namespace CPURegs

def set_carry_status (c : CPURegs) : CPURegs :=
  { c with status := { c.status with carry := true } }

def clear_carry_status (c : CPURegs) : CPURegs :=
  { c with status := { c.status with carry := false } }

def set_zero_status (c : CPURegs) : CPURegs :=
  { c with status := { c.status with zero := true } }

def clear_zero_status (c : CPURegs) : CPURegs :=
  { c with status := { c.status with zero := false } }

def set_interrupt_disable_status (c : CPURegs) : CPURegs :=
  { c with status := { c.status with interrupt_disable := true } }

def set_break_status (c : CPURegs) : CPURegs :=
  { c with status := { c.status with break_flag := true } }

def clear_break_status (c : CPURegs) : CPURegs :=
  { c with status := { c.status with break_flag := false } }

def set_unused_status (c : CPURegs) : CPURegs :=
  { c with status := { c.status with unused := true } }

def set_overflow_status (c : CPURegs) : CPURegs :=
  { c with status := { c.status with overflow := true } }

def clear_overflow_status (c : CPURegs) : CPURegs :=
  { c with status := { c.status with overflow := false } }

def set_negative_status (c : CPURegs) : CPURegs :=
  { c with status := { c.status with negative := true } }

def clear_negative_status (c : CPURegs) : CPURegs :=
  { c with status := { c.status with negative := false } }

def update_negative_status (c : CPURegs) (result : Nat) : CPURegs :=
  if result >>> 7 = 1 then c.set_negative_status else c.clear_negative_status

def update_zero_status (c : CPURegs) (result : Nat) : CPURegs :=
  if result = 0 then c.set_zero_status else c.clear_zero_status

def update_status (c : CPURegs) (result : Nat) : CPURegs :=
  (c.update_negative_status result).update_zero_status result

def set_register_a (c : CPURegs) (value : Nat) : CPURegs :=
  ({ c with register_a := value } : CPURegs).update_status value

/-- Rust `u8` wrapping negation, `(value as i8).wrapping_neg()` on the
underlying byte. -/
def wrapping_neg8 (v : Nat) : Nat := (256 - v % 256) % 256

/-- Rust `u8` wrapping subtraction. -/
def wrapping_sub8 (a b : Nat) : Nat := (a % 256 + (256 - b % 256)) % 256

/-- `CPU::add_to_register_a` (`cpu/processor.rs`): the shared ADC/SBC
core.  The Rust body is a sequence of if/else statements updating the
flags in order; each statement is modelled by one `adc_*_update` helper
below and the whole body is their composition.  The intermediate
zero/negative updates are overwritten by the final `set_register_a`. -/
def adc_carry_update (c : CPURegs) (result : Nat) : CPURegs :=
  if result > 0xFF then c.set_carry_status else c.clear_carry_status

def adc_zero_quirk_update (c : CPURegs) (result : Nat) : CPURegs :=
  if result &&& 0xFF = 1 then c.set_zero_status else c.clear_zero_status

def adc_negative_update (c : CPURegs) (result : Nat) : CPURegs :=
  if result &&& 0x80 > 0 then c.set_negative_status else c.clear_negative_status

def adc_overflow_update (c : CPURegs) (value result8 : Nat) : CPURegs :=
  if (value ^^^ result8) &&& (result8 ^^^ c.register_a) &&& 0x80 > 0 then
    c.set_overflow_status
  else
    c.clear_overflow_status

def add_to_register_a (c : CPURegs) (value : Nat) : CPURegs :=
  let overflowing_bit : Nat := if c.status.carry then 1 else 0
  let result := c.register_a + value + overflowing_bit
  let result8 := result % 256
  (((( c.adc_carry_update result).adc_zero_quirk_update result).adc_negative_update
      result).adc_overflow_update value result8).set_register_a result8

/-- `CPU::sub_from_register_a`: SBC rewrites the operand as
`(value as i8).wrapping_neg().wrapping_sub(1) as u8` and reuses the
adder. -/
def sub_from_register_a (c : CPURegs) (value : Nat) : CPURegs :=
  add_to_register_a c (wrapping_sub8 (wrapping_neg8 value) 1)

end CPURegs

set_option maxRecDepth 4096 in
/-- For bytes, the negate-then-decrement trick used by `sub_from_register_a`
is exactly bitwise complement (`value ^ 0xFF`). -/
theorem wrapping_trick_eq_xor (v : Nat) (hv : v < 256) :
    CPURegs.wrapping_sub8 (CPURegs.wrapping_neg8 v) 1 = v ^^^ 0xFF := by
  revert v
  decide

set_option maxRecDepth 4096 in
theorem shiftRight7_eq_one_iff_testBit (r : Nat) (hr : r < 256) :
    (r >>> 7 = 1) ↔ r.testBit 7 := by
  revert r
  decide

section AddCharacterization

namespace CPURegs

variable (c : CPURegs) (v r r8 : Nat)

@[simp] theorem update_negative_status_register_a :
    (c.update_negative_status r).register_a = c.register_a := by
  unfold update_negative_status set_negative_status clear_negative_status
  split_ifs <;> rfl

@[simp] theorem update_negative_status_carry :
    (c.update_negative_status r).status.carry = c.status.carry := by
  unfold update_negative_status set_negative_status clear_negative_status
  split_ifs <;> rfl

@[simp] theorem update_negative_status_overflow :
    (c.update_negative_status r).status.overflow = c.status.overflow := by
  unfold update_negative_status set_negative_status clear_negative_status
  split_ifs <;> rfl

@[simp] theorem update_negative_status_zero :
    (c.update_negative_status r).status.zero = c.status.zero := by
  unfold update_negative_status set_negative_status clear_negative_status
  split_ifs <;> rfl

@[simp] theorem update_negative_status_negative :
    (c.update_negative_status r).status.negative = decide (r >>> 7 = 1) := by
  unfold update_negative_status set_negative_status clear_negative_status
  split_ifs with h <;> simp [h]

@[simp] theorem update_zero_status_register_a :
    (c.update_zero_status r).register_a = c.register_a := by
  unfold update_zero_status set_zero_status clear_zero_status
  split_ifs <;> rfl

@[simp] theorem update_zero_status_carry :
    (c.update_zero_status r).status.carry = c.status.carry := by
  unfold update_zero_status set_zero_status clear_zero_status
  split_ifs <;> rfl

@[simp] theorem update_zero_status_overflow :
    (c.update_zero_status r).status.overflow = c.status.overflow := by
  unfold update_zero_status set_zero_status clear_zero_status
  split_ifs <;> rfl

@[simp] theorem update_zero_status_negative :
    (c.update_zero_status r).status.negative = c.status.negative := by
  unfold update_zero_status set_zero_status clear_zero_status
  split_ifs <;> rfl

@[simp] theorem update_zero_status_zero :
    (c.update_zero_status r).status.zero = decide (r = 0) := by
  unfold update_zero_status set_zero_status clear_zero_status
  split_ifs with h <;> simp [h]

@[simp] theorem set_register_a_register_a :
    (c.set_register_a v).register_a = v := by
  simp [set_register_a, update_status]

@[simp] theorem set_register_a_carry :
    (c.set_register_a v).status.carry = c.status.carry := by
  simp [set_register_a, update_status]

@[simp] theorem set_register_a_overflow :
    (c.set_register_a v).status.overflow = c.status.overflow := by
  simp [set_register_a, update_status]

@[simp] theorem set_register_a_zero :
    (c.set_register_a v).status.zero = decide (v = 0) := by
  simp [set_register_a, update_status]

@[simp] theorem set_register_a_negative :
    (c.set_register_a v).status.negative = decide (v >>> 7 = 1) := by
  simp [set_register_a, update_status]

@[simp] theorem adc_carry_update_register_a :
    (c.adc_carry_update r).register_a = c.register_a := by
  unfold adc_carry_update set_carry_status clear_carry_status
  split_ifs <;> rfl

@[simp] theorem adc_carry_update_carry :
    (c.adc_carry_update r).status.carry = decide (r > 0xFF) := by
  unfold adc_carry_update set_carry_status clear_carry_status
  split_ifs with h <;> simp [h]

@[simp] theorem adc_carry_update_overflow :
    (c.adc_carry_update r).status.overflow = c.status.overflow := by
  unfold adc_carry_update set_carry_status clear_carry_status
  split_ifs <;> rfl

@[simp] theorem adc_zero_quirk_update_register_a :
    (c.adc_zero_quirk_update r).register_a = c.register_a := by
  unfold adc_zero_quirk_update set_zero_status clear_zero_status
  split_ifs <;> rfl

@[simp] theorem adc_zero_quirk_update_carry :
    (c.adc_zero_quirk_update r).status.carry = c.status.carry := by
  unfold adc_zero_quirk_update set_zero_status clear_zero_status
  split_ifs <;> rfl

@[simp] theorem adc_zero_quirk_update_overflow :
    (c.adc_zero_quirk_update r).status.overflow = c.status.overflow := by
  unfold adc_zero_quirk_update set_zero_status clear_zero_status
  split_ifs <;> rfl

@[simp] theorem adc_negative_update_register_a :
    (c.adc_negative_update r).register_a = c.register_a := by
  unfold adc_negative_update set_negative_status clear_negative_status
  split_ifs <;> rfl

@[simp] theorem adc_negative_update_carry :
    (c.adc_negative_update r).status.carry = c.status.carry := by
  unfold adc_negative_update set_negative_status clear_negative_status
  split_ifs <;> rfl

@[simp] theorem adc_negative_update_overflow :
    (c.adc_negative_update r).status.overflow = c.status.overflow := by
  unfold adc_negative_update set_negative_status clear_negative_status
  split_ifs <;> rfl

@[simp] theorem adc_overflow_update_register_a :
    (c.adc_overflow_update v r8).register_a = c.register_a := by
  unfold adc_overflow_update set_overflow_status clear_overflow_status
  split_ifs <;> rfl

@[simp] theorem adc_overflow_update_carry :
    (c.adc_overflow_update v r8).status.carry = c.status.carry := by
  unfold adc_overflow_update set_overflow_status clear_overflow_status
  split_ifs <;> rfl

@[simp] theorem adc_overflow_update_overflow :
    (c.adc_overflow_update v r8).status.overflow =
      decide ((v ^^^ r8) &&& (r8 ^^^ c.register_a) &&& 0x80 > 0) := by
  unfold adc_overflow_update set_overflow_status clear_overflow_status
  split_ifs with h <;> simp [h]

end CPURegs

variable (c : CPURegs) (value : Nat)

theorem add_to_register_a_register_a :
    (c.add_to_register_a value).register_a =
      (c.register_a + value + (if c.status.carry then 1 else 0)) % 256 := by
  simp only [CPURegs.add_to_register_a, CPURegs.set_register_a_register_a,
    CPURegs.set_register_a_carry, CPURegs.set_register_a_zero, CPURegs.set_register_a_negative,
    CPURegs.set_register_a_overflow, CPURegs.adc_carry_update_register_a,
    CPURegs.adc_carry_update_carry, CPURegs.adc_carry_update_overflow,
    CPURegs.adc_zero_quirk_update_register_a, CPURegs.adc_zero_quirk_update_carry,
    CPURegs.adc_zero_quirk_update_overflow, CPURegs.adc_negative_update_register_a,
    CPURegs.adc_negative_update_carry, CPURegs.adc_negative_update_overflow,
    CPURegs.adc_overflow_update_register_a, CPURegs.adc_overflow_update_carry,
    CPURegs.adc_overflow_update_overflow]

theorem add_to_register_a_carry :
    (c.add_to_register_a value).status.carry =
      decide (c.register_a + value + (if c.status.carry then 1 else 0) > 0xFF) := by
  simp only [CPURegs.add_to_register_a, CPURegs.set_register_a_register_a,
    CPURegs.set_register_a_carry, CPURegs.set_register_a_zero, CPURegs.set_register_a_negative,
    CPURegs.set_register_a_overflow, CPURegs.adc_carry_update_register_a,
    CPURegs.adc_carry_update_carry, CPURegs.adc_carry_update_overflow,
    CPURegs.adc_zero_quirk_update_register_a, CPURegs.adc_zero_quirk_update_carry,
    CPURegs.adc_zero_quirk_update_overflow, CPURegs.adc_negative_update_register_a,
    CPURegs.adc_negative_update_carry, CPURegs.adc_negative_update_overflow,
    CPURegs.adc_overflow_update_register_a, CPURegs.adc_overflow_update_carry,
    CPURegs.adc_overflow_update_overflow]

theorem add_to_register_a_zero :
    (c.add_to_register_a value).status.zero =
      decide ((c.register_a + value + (if c.status.carry then 1 else 0)) % 256 = 0) := by
  simp only [CPURegs.add_to_register_a, CPURegs.set_register_a_register_a,
    CPURegs.set_register_a_carry, CPURegs.set_register_a_zero, CPURegs.set_register_a_negative,
    CPURegs.set_register_a_overflow, CPURegs.adc_carry_update_register_a,
    CPURegs.adc_carry_update_carry, CPURegs.adc_carry_update_overflow,
    CPURegs.adc_zero_quirk_update_register_a, CPURegs.adc_zero_quirk_update_carry,
    CPURegs.adc_zero_quirk_update_overflow, CPURegs.adc_negative_update_register_a,
    CPURegs.adc_negative_update_carry, CPURegs.adc_negative_update_overflow,
    CPURegs.adc_overflow_update_register_a, CPURegs.adc_overflow_update_carry,
    CPURegs.adc_overflow_update_overflow]

theorem add_to_register_a_negative :
    (c.add_to_register_a value).status.negative =
      decide (((c.register_a + value + (if c.status.carry then 1 else 0)) % 256) >>> 7 = 1) := by
  simp only [CPURegs.add_to_register_a, CPURegs.set_register_a_register_a,
    CPURegs.set_register_a_carry, CPURegs.set_register_a_zero, CPURegs.set_register_a_negative,
    CPURegs.set_register_a_overflow, CPURegs.adc_carry_update_register_a,
    CPURegs.adc_carry_update_carry, CPURegs.adc_carry_update_overflow,
    CPURegs.adc_zero_quirk_update_register_a, CPURegs.adc_zero_quirk_update_carry,
    CPURegs.adc_zero_quirk_update_overflow, CPURegs.adc_negative_update_register_a,
    CPURegs.adc_negative_update_carry, CPURegs.adc_negative_update_overflow,
    CPURegs.adc_overflow_update_register_a, CPURegs.adc_overflow_update_carry,
    CPURegs.adc_overflow_update_overflow]

theorem add_to_register_a_overflow :
    (c.add_to_register_a value).status.overflow =
      decide
        ((value ^^^ (c.register_a + value + (if c.status.carry then 1 else 0)) % 256) &&&
         ((c.register_a + value + (if c.status.carry then 1 else 0)) % 256 ^^^
          c.register_a) &&& 0x80 > 0) := by
  simp only [CPURegs.add_to_register_a, CPURegs.set_register_a_register_a,
    CPURegs.set_register_a_carry, CPURegs.set_register_a_zero, CPURegs.set_register_a_negative,
    CPURegs.set_register_a_overflow, CPURegs.adc_carry_update_register_a,
    CPURegs.adc_carry_update_carry, CPURegs.adc_carry_update_overflow,
    CPURegs.adc_zero_quirk_update_register_a, CPURegs.adc_zero_quirk_update_carry,
    CPURegs.adc_zero_quirk_update_overflow, CPURegs.adc_negative_update_register_a,
    CPURegs.adc_negative_update_carry, CPURegs.adc_negative_update_overflow,
    CPURegs.adc_overflow_update_register_a, CPURegs.adc_overflow_update_carry,
    CPURegs.adc_overflow_update_overflow]

end AddCharacterization

/-- C5: for every accumulator value `A`, operand `op` and incoming carry,
`SBC` computes `A + (op ^ 0xFF) + C` as an 8-bit addition; Carry is set
iff the unsigned sum exceeds `0xFF`, Overflow equals
`((A ^ result) & (op' ^ result) & 0x80) != 0`, and Zero/Negative reflect
the result byte. -/
theorem C5_sbc_flags (c : CPURegs) (op : Nat)
    (ha : c.register_a < 256) (hop : op < 256) :
    (c.sub_from_register_a op).register_a =
        (c.register_a + (op ^^^ 0xFF) + (if c.status.carry then 1 else 0)) % 256 ∧
    (c.sub_from_register_a op).status.carry =
        decide (c.register_a + (op ^^^ 0xFF) + (if c.status.carry then 1 else 0) > 0xFF) ∧
    (c.sub_from_register_a op).status.overflow =
        decide ((c.register_a ^^^ (c.sub_from_register_a op).register_a) &&&
                ((op ^^^ 0xFF) ^^^ (c.sub_from_register_a op).register_a) &&& 0x80 ≠ 0) ∧
    (c.sub_from_register_a op).status.zero =
        decide ((c.sub_from_register_a op).register_a = 0) ∧
    (c.sub_from_register_a op).status.negative =
        (c.sub_from_register_a op).register_a.testBit 7 := by
  have hval := wrapping_trick_eq_xor op hop
  have hrw : c.sub_from_register_a op = c.add_to_register_a (op ^^^ 0xFF) := by
    rw [CPURegs.sub_from_register_a, hval]
  rw [hrw, add_to_register_a_register_a, add_to_register_a_carry, add_to_register_a_zero,
    add_to_register_a_negative, add_to_register_a_overflow]
  set r := (c.register_a + (op ^^^ 0xFF) + (if c.status.carry then 1 else 0)) % 256 with hrdef
  have hr : r < 256 := Nat.mod_lt _ (by omega)
  have hcomm : ((op ^^^ 0xFF) ^^^ r) &&& (r ^^^ c.register_a) =
      (c.register_a ^^^ r) &&& ((op ^^^ 0xFF) ^^^ r) := by
    rw [Nat.and_comm, Nat.xor_comm r c.register_a]
  refine ⟨rfl, rfl, ?_, rfl, ?_⟩
  · rw [hcomm]
    simp [Nat.pos_iff_ne_zero]
  · simp [shiftRight7_eq_one_iff_testBit r hr]

/-- Concrete instance of `C5_sbc_flags`: `SBC #$01` with `A = 0x00`,
`C = 1` yields `A = 0xFF`, `C = 0`, `N = 1`, `V = 0`. -/
theorem C5_sbc_flags_witness :
    (0 : Nat) < 256 ∧ (1 : Nat) < 256 ∧
    ((⟨0, 0xFD, 0, 0, 0, 0, ⟨true, false, false, false, false, true, false, false⟩⟩ :
        CPURegs).sub_from_register_a 1).register_a =
      (0 + (1 ^^^ 0xFF) + 1) % 256 := by
  refine ⟨by decide, by decide, ?_⟩
  have h := C5_sbc_flags
    (⟨0, 0xFD, 0, 0, 0, 0, ⟨true, false, false, false, false, true, false, false⟩⟩ : CPURegs)
    1 (by decide) (by decide)
  simpa using h.1


/-! ## Cartridge and mappers (`cartridge/mod.rs`, `cartridge/mappers.rs`) -/

inductive Mirroring where
  | horizontal
  | vertical
  | oneScreenLow
  | oneScreenHigh
  | fourScreen
  deriving Repr, DecidableEq

/-- The two mapper variants (`MapperType` plus the per-mapper state).
`uxrom.bank_select_count_register` is the fixed last bank
(`prg_banks_count - 1`). -/
inductive MapperState where
  | nrom (prg_banks_count chr_banks_count : Nat)
  | uxrom (prg_banks_count chr_banks_count bank_select_register bank_select_count_register : Nat)
  deriving Repr, DecidableEq

namespace MapperState

/-- `Mapper::map_cpu_read` for both variants. -/
def map_cpu_read : MapperState → Nat → Nat
  | nrom prg_banks _, index =>
      if prg_banks > 1 then
        let memory_span := 0x4000 * prg_banks
        index &&& (memory_span - 1)
      else
        index &&& (0x4000 - 1)
  | uxrom _ _ bank_select last_bank, index =>
      if 0x8000 ≤ index ∧ index ≤ 0xBFFF then
        bank_select * 0x4000 + (index &&& (0x4000 - 1))
      else if 0xC000 ≤ index ∧ index ≤ 0xFFFF then
        last_bank * 0x4000 + (index &&& (0x4000 - 1))
      else
        index

/-- `Mapper::map_cpu_write`: the UxROM variant latches the low four bits
of the written value as the bank select; the mapped index is returned
unchanged by both variants. -/
def map_cpu_write : MapperState → Nat → Nat → MapperState × Nat
  | m@(nrom _ _), index, _ => (m, index)
  | uxrom p c bs last_bank, index, value =>
      if 0x8000 ≤ index ∧ index ≤ 0xFFFF then
        (uxrom p c (value &&& 0xF) last_bank, index)
      else
        (uxrom p c bs last_bank, index)

/-- `Mapper::map_ppu_read` (note the source's `memory_span & 1`). -/
def map_ppu_read : MapperState → Nat → Nat
  | nrom _ chr_banks, index =>
      if chr_banks > 1 then
        let memory_span := 0x2000 * chr_banks
        index &&& (memory_span &&& 1)
      else
        index &&& (0x2000 - 1)
  | uxrom _ _ _ _, index => index

/-- `Mapper::map_ppu_write` (same mapping as the read side). -/
def map_ppu_write : MapperState → Nat → Nat
  | nrom _ chr_banks, index =>
      if chr_banks > 1 then
        let memory_span := 0x2000 * chr_banks
        index &&& (memory_span &&& 1)
      else
        index &&& (0x2000 - 1)
  | uxrom _ _ _ _, index => index

def has_ram : MapperState → Bool
  | nrom _ _ => false
  | uxrom _ _ _ _ => true

/-- `Mapper::scanline` is the trait default (a no-op) for both NROM and
UxROM. -/
def scanline (m : MapperState) : MapperState := m

end MapperState

/-- `Cartridge`: PRG/CHR memories are total byte maps indexed by the
mapped offset. -/
structure Cart where
  prg_memory : Nat → Nat
  chr_memory : Nat → Nat
  mapper : MapperState
  mirroring : Mirroring

namespace Cart

def cpu_read_u8 (c : Cart) (index : Nat) : Nat :=
  c.prg_memory (c.mapper.map_cpu_read index)

def cpu_write_u8 (c : Cart) (index value : Nat) : Cart :=
  { c with mapper := (c.mapper.map_cpu_write index value).1 }

def ppu_read_u8 (c : Cart) (index : Nat) : Nat :=
  c.chr_memory (c.mapper.map_ppu_read index)

def ppu_write_u8 (c : Cart) (index value : Nat) : Cart :=
  let mapped_index := c.mapper.map_ppu_write index
  if c.mapper.has_ram then
    { c with chr_memory := fun i => if i = mapped_index then value else c.chr_memory i }
  else
    c

end Cart

/-! ## PPU register images (`ppu/registers.rs`) -/

structure Controller where
  nametable_x : Bool
  nametable_y : Bool
  vram_address_increment : Bool
  sprite_pattern_address : Bool
  background_pattern_address : Bool
  sprite_size : Bool
  master_slave_select : Bool
  generate_nmi : Bool
  deriving Repr, DecidableEq

namespace Controller

/-- `Controller::from_bits(value).unwrap()`: every byte is a valid flag
set, so the unwrap never fails. -/
def from_bits (b : Nat) : Controller :=
  ⟨b.testBit 0, b.testBit 1, b.testBit 2, b.testBit 3,
   b.testBit 4, b.testBit 5, b.testBit 6, b.testBit 7⟩

def get_sprite_size (c : Controller) : Nat :=
  if c.sprite_size then 16 else 8

end Controller

structure Mask where
  greyscale : Bool
  leftmost_show_background : Bool
  leftmost_show_sprites : Bool
  show_background : Bool
  show_sprites : Bool
  emphasize_red : Bool
  emphasize_green : Bool
  emphasize_blue : Bool
  deriving Repr, DecidableEq

namespace Mask

def from_bits (b : Nat) : Mask :=
  ⟨b.testBit 0, b.testBit 1, b.testBit 2, b.testBit 3,
   b.testBit 4, b.testBit 5, b.testBit 6, b.testBit 7⟩

def is_background_enabled (m : Mask) : Bool := m.show_background

def is_foreground_enabled (m : Mask) : Bool := m.show_sprites

def is_render_enabled (m : Mask) : Bool :=
  m.is_background_enabled || m.is_foreground_enabled

end Mask

structure PpuStatus where
  openbus0 : Bool
  openbus1 : Bool
  openbus2 : Bool
  openbus3 : Bool
  openbus4 : Bool
  sprite_overflow : Bool
  sprite_zero_hit : Bool
  vertical_blank : Bool
  deriving Repr, DecidableEq

namespace PpuStatus

def bits (s : PpuStatus) : Nat :=
  (if s.openbus0 then 0x01 else 0) +
  (if s.openbus1 then 0x02 else 0) +
  (if s.openbus2 then 0x04 else 0) +
  (if s.openbus3 then 0x08 else 0) +
  (if s.openbus4 then 0x10 else 0) +
  (if s.sprite_overflow then 0x20 else 0) +
  (if s.sprite_zero_hit then 0x40 else 0) +
  (if s.vertical_blank then 0x80 else 0)

/-- `Status::read`: returns the bits merged with the low five open-bus
bits and clears `VERTICAL_BLANK`. -/
def read (s : PpuStatus) (open_bus : Nat) : Nat × PpuStatus :=
  (s.bits ||| (open_bus &&& ((1 <<< 5) - 1)), { s with vertical_blank := false })

/-- `Status::reset`. -/
def reset (s : PpuStatus) : PpuStatus :=
  { s with sprite_overflow := false, sprite_zero_hit := false, vertical_blank := false }

end PpuStatus

/-! ## The loopy VRAM address register (`ppu/registers.rs`)

The Rust struct stores raw `u8` fields `coarse_x`/`coarse_y`/`fine_y`
and masks them in the accessor methods; the record fields below are the
raw stored values and the `*_masked` functions are the accessors. -/

structure LoopyRegister where
  coarse_x : Nat
  coarse_y : Nat
  nametable_x : Nat
  nametable_y : Nat
  fine_y : Nat
  deriving Repr, DecidableEq

namespace LoopyRegister

def new : LoopyRegister := ⟨0, 0, 0, 0, 0⟩

def coarse_x_masked (l : LoopyRegister) : Nat := l.coarse_x &&& 0b11111

def coarse_y_masked (l : LoopyRegister) : Nat := l.coarse_y &&& 0b11111

def fine_y_masked (l : LoopyRegister) : Nat := l.fine_y &&& 0b111

def set_coarse_x (l : LoopyRegister) (value : Nat) : LoopyRegister :=
  { l with coarse_x := value }

def set_coarse_y (l : LoopyRegister) (value : Nat) : LoopyRegister :=
  { l with coarse_y := value }

def set_fine_y (l : LoopyRegister) (value : Nat) : LoopyRegister :=
  { l with fine_y := value &&& 0b111 }

def flip_nametable_x (l : LoopyRegister) : LoopyRegister :=
  if l.nametable_x = 1 then { l with nametable_x := 0 } else { l with nametable_x := 1 }

def flip_nametable_y (l : LoopyRegister) : LoopyRegister :=
  if l.nametable_y = 1 then { l with nametable_y := 0 } else { l with nametable_y := 1 }

def increment_coarse_x (l : LoopyRegister) : LoopyRegister :=
  if l.coarse_x_masked = 31 then
    (l.set_coarse_x 0).flip_nametable_x
  else
    l.set_coarse_x (l.coarse_x_masked + 1)

def increment_coarse_y (l : LoopyRegister) : LoopyRegister :=
  if l.fine_y_masked < 7 then
    l.set_fine_y (l.fine_y + 1)
  else
    let l := l.set_fine_y 0
    if l.coarse_y_masked = 29 then
      (l.set_coarse_y 0).flip_nametable_y
    else if l.coarse_y_masked = 31 then
      l.set_coarse_y 0
    else
      l.set_coarse_y (l.coarse_y_masked + 1)

def address (l : LoopyRegister) : Nat :=
  (l.fine_y_masked <<< 12) ||| (l.nametable_y <<< 11) ||| (l.nametable_x <<< 10) |||
  (l.coarse_y_masked <<< 5) ||| l.coarse_x_masked

def vram_address (l : LoopyRegister) : Nat := l.address &&& 0xFFF

def next_tile_attribute_address (l : LoopyRegister) : Nat :=
  (l.nametable_y <<< 11) ||| (l.nametable_x <<< 10) |||
  ((l.coarse_y_masked >>> 2) <<< 3) ||| (l.coarse_x_masked >>> 2)

def transfer_x_from (l other : LoopyRegister) : LoopyRegister :=
  { l with nametable_x := other.nametable_x, coarse_x := other.coarse_x }

def transfer_y_from (l other : LoopyRegister) : LoopyRegister :=
  { l with fine_y := other.fine_y, nametable_y := other.nametable_y,
           coarse_y := other.coarse_y }

def set (_l : LoopyRegister) (value : Nat) : LoopyRegister :=
  { coarse_x := value &&& 0b11111,
    coarse_y := (value >>> 5) &&& 0b11111,
    nametable_x := (value >>> 10) &&& 1,
    nametable_y := (value >>> 11) &&& 1,
    fine_y := (value >>> 12) &&& 0b111 }

/-- `LoopyRegister::increment`: `u16` wrapping add of 1 or 32 to the
packed address, then re-unpacked by `set`. -/
def increment (l : LoopyRegister) (vertical_mode : Bool) : LoopyRegister :=
  let new_address :=
    if vertical_mode then (l.address + 32) % 65536 else (l.address + 1) % 65536
  l.set new_address

end LoopyRegister

/-! ## OAM sprites (`ppu/oam.rs`) -/

structure OamSprite where
  y : Nat
  id : Nat
  attr : Nat
  x : Nat
  deriving Repr, DecidableEq

namespace OamSprite

def new_empty : OamSprite := ⟨0, 0, 0, 0⟩

def set_attribute_by_address (s : OamSprite) (address value : Nat) : OamSprite :=
  match address % 4 with
  | 0 => { s with y := value }
  | 1 => { s with id := value }
  | 2 => { s with attr := value }
  | _ => { s with x := value }

def get_attribute_by_address (s : OamSprite) (address : Nat) : Nat :=
  match address % 4 with
  | 0 => s.y
  | 1 => s.id
  | 2 => s.attr
  | _ => s.x

end OamSprite

/-! ## PPU state (`ppu/mod.rs`, struct `PPU`)

The shared `Rc<RefCell<Cartridge>>` is modelled by passing the `Cart`
explicitly into the functions that borrow it.  The debug pattern tables
are omitted (debug-only state never read by the core). -/

structure PPUState where
  total_cycles : Nat
  cycles : Nat
  nmi_interrupt : Bool
  latch : Bool
  control_register : Controller
  mask_register : Mask
  status_register : PpuStatus
  oam_address_register : Nat
  oam_data_register : Nat
  address_register : LoopyRegister
  temp_address_register : LoopyRegister
  fine_x : Nat
  next_background_tile_id : Nat
  next_background_tile_attribute : Nat
  next_background_tile_lsb : Nat
  next_background_tile_msb : Nat
  background_shifter_pattern_low : Nat
  background_shifter_pattern_high : Nat
  background_shifter_attribute_low : Nat
  background_shifter_attribute_high : Nat
  sprites_count : Nat
  sprite_shifter_pattern_low : Nat → Nat
  sprite_shifter_pattern_high : Nat → Nat
  oam_sprites : Nat → OamSprite
  scanline_sprites : Nat → OamSprite
  has_sprite_zero_hit : Bool
  is_sprite_zero_hit_rendering : Bool
  screen : Nat → Nat → Nat
  data_buffer : Nat
  memory : Nat → Nat
  palette : Nat → Nat
  scanlines : Int
  completed_frame : Bool
  odd_frame : Bool

namespace PPUState

/-- `PPU::new` (minus the debug tables and the owned cartridge). -/
def new : PPUState where
  total_cycles := 0
  cycles := 0
  nmi_interrupt := false
  latch := false
  control_register := Controller.from_bits 0
  mask_register := Mask.from_bits 0
  status_register := ⟨false, false, false, false, false, false, false, false⟩
  oam_address_register := 0
  oam_data_register := 0
  address_register := LoopyRegister.new
  temp_address_register := LoopyRegister.new
  fine_x := 0
  next_background_tile_id := 0
  next_background_tile_attribute := 0
  next_background_tile_lsb := 0
  next_background_tile_msb := 0
  background_shifter_pattern_low := 0
  background_shifter_pattern_high := 0
  background_shifter_attribute_low := 0
  background_shifter_attribute_high := 0
  sprites_count := 0
  sprite_shifter_pattern_low := fun _ => 0
  sprite_shifter_pattern_high := fun _ => 0
  oam_sprites := fun _ => OamSprite.new_empty
  scanline_sprites := fun _ => OamSprite.new_empty
  has_sprite_zero_hit := false
  is_sprite_zero_hit_rendering := false
  screen := fun _ _ => 0
  data_buffer := 0
  memory := fun _ => 0
  palette := fun _ => 0
  scanlines := 0
  completed_frame := false
  odd_frame := false

/-- `PPU::read_from_internal_memory`: the nametable read path.  The two
mirroring variants have the sets of ranges the Rust match arms use; the
fall-through arms (impossible addresses and the unsupported one-screen /
four-screen mirrorings) panic and are modelled as `none`. -/
def read_from_internal_memory (c : Cart) (p : PPUState) (address : Nat) : Option Nat :=
  let mirrored_address := address &&& 0xFFF
  match c.mirroring with
  | Mirroring.horizontal =>
      if mirrored_address ≤ 0x3FF ∨ (0x400 ≤ mirrored_address ∧ mirrored_address ≤ 0x7FF) then
        some (p.memory (mirrored_address &&& (0x800 - 1)))
      else if (0x800 ≤ mirrored_address ∧ mirrored_address ≤ 0xBFF) ∨
          (0xC00 ≤ mirrored_address ∧ mirrored_address ≤ 0xFFF) then
        some (p.memory (mirrored_address &&& (0x800 - 1)))
      else
        none
  | Mirroring.vertical =>
      if mirrored_address ≤ 0x3FF ∨ (0x800 ≤ mirrored_address ∧ mirrored_address ≤ 0xBFF) then
        some (p.memory (mirrored_address &&& (0x800 - 1)))
      else if (0x400 ≤ mirrored_address ∧ mirrored_address ≤ 0x7FF) ∨
          (0xC00 ≤ mirrored_address ∧ mirrored_address ≤ 0xFFF) then
        some (p.memory (mirrored_address &&& (0x800 - 1)))
      else
        none
  | _ => none

/-- `PPU::write_to_internal_memory` (same arm structure as the read). -/
def write_to_internal_memory (c : Cart) (p : PPUState) (address value : Nat) :
    Option PPUState :=
  let mirrored_address := address &&& 0xFFF
  match c.mirroring with
  | Mirroring.horizontal =>
      if mirrored_address ≤ 0x3FF ∨ (0x400 ≤ mirrored_address ∧ mirrored_address ≤ 0x7FF) then
        some { p with memory := fun i =>
          if i = mirrored_address &&& (0x800 - 1) then value else p.memory i }
      else if (0x800 ≤ mirrored_address ∧ mirrored_address ≤ 0xBFF) ∨
          (0xC00 ≤ mirrored_address ∧ mirrored_address ≤ 0xFFF) then
        some { p with memory := fun i =>
          if i = mirrored_address &&& (0x800 - 1) then value else p.memory i }
      else
        none
  | Mirroring.vertical =>
      if mirrored_address ≤ 0x3FF ∨ (0x800 ≤ mirrored_address ∧ mirrored_address ≤ 0xBFF) then
        some { p with memory := fun i =>
          if i = mirrored_address &&& (0x800 - 1) then value else p.memory i }
      else if (0x400 ≤ mirrored_address ∧ mirrored_address ≤ 0x7FF) ∨
          (0xC00 ≤ mirrored_address ∧ mirrored_address ≤ 0xFFF) then
        some { p with memory := fun i =>
          if i = mirrored_address &&& (0x800 - 1) then value else p.memory i }
      else
        none
  | _ => none

/-- `PPU::read_u8`: masks the address to 14 bits and dispatches to CHR,
nametable RAM or palette RAM; the fall-through arm panics (`none`). -/
def read_u8 (c : Cart) (p : PPUState) (address : Nat) : Option Nat :=
  let address := address &&& 0x3FFF
  if address ≤ 0x1FFF then
    some (c.ppu_read_u8 address)
  else if 0x2000 ≤ address ∧ address ≤ 0x3EFF then
    p.read_from_internal_memory c address
  else if 0x3F00 ≤ address ∧ address ≤ 0x3FFF then
    let address := address &&& (32 - 1)
    let address := if address = 0x10 ∨ address = 0x14 ∨ address = 0x18 ∨ address = 0x1C then
        address - 0x10
      else
        address
    some (p.palette address)
  else
    none

/-- `PPU::write_u8`: the same dispatch as `read_u8` but with NO 14-bit
mask on the incoming address; addresses outside the three ranges hit the
panicking fall-through arm (`none`). -/
def write_u8 (c : Cart) (p : PPUState) (address value : Nat) : Option (Cart × PPUState) :=
  if address ≤ 0x1FFF then
    some (c.ppu_write_u8 address value, p)
  else if 0x2000 ≤ address ∧ address ≤ 0x3EFF then
    (p.write_to_internal_memory c address value).map fun p1 => (c, p1)
  else if 0x3F00 ≤ address ∧ address ≤ 0x3FFF then
    let address := address &&& (32 - 1)
    let address := if address = 0x10 ∨ address = 0x14 ∨ address = 0x18 ∨ address = 0x1C then
        address - 0x10
      else
        address
    some (c, { p with palette := fun i => if i = address then value else p.palette i })
  else
    none

def increment_address_register (p : PPUState) : PPUState :=
  let vertical_mode := p.control_register.vram_address_increment
  { p with address_register := p.address_register.increment vertical_mode }

/-- `PPU::read_status_register`: `Status::read` merges open-bus bits and
clears vblank, then the register write-back clears vblank again and
resets the address latch. -/
def read_status_register (p : PPUState) : Nat × PPUState :=
  let (result, st) := p.status_register.read p.data_buffer
  (result, { p with status_register := { st with vertical_blank := false }, latch := false })

def get_sprite_index (p : PPUState) : Nat := p.oam_address_register / 4

def get_oam_data_value (p : PPUState) : Nat :=
  (p.oam_sprites p.get_sprite_index).get_attribute_by_address p.oam_address_register

def set_oam_data_value (p : PPUState) (value : Nat) : PPUState :=
  let index := p.get_sprite_index
  { p with oam_sprites := fun i =>
      if i = index then (p.oam_sprites index).set_attribute_by_address p.oam_address_register value
      else p.oam_sprites i }

def read_oam_data_register (p : PPUState) : Nat := p.get_oam_data_value

/-- `PPU::read_data_register` ($2007 read): returns the stale buffer,
refills it from the address in V, bypasses the buffer for addresses at
or above `PALETTE_PAGE_START`, then auto-increments V. -/
def read_data_register (c : Cart) (p : PPUState) : Option (Nat × PPUState) :=
  let result := p.data_buffer
  let address := p.address_register.address
  (p.read_u8 c address).map fun fresh =>
    let p1 := { p with data_buffer := fresh }
    let result := if address ≥ 0x3F00 then p1.data_buffer else result
    (result, p1.increment_address_register)

def write_control_register (p : PPUState) (value : Nat) : PPUState :=
  let control := Controller.from_bits value
  let p := { p with control_register := control }
  let p := if control.nametable_x then
      { p with temp_address_register := { p.temp_address_register with nametable_x := 1 } }
    else
      { p with temp_address_register := { p.temp_address_register with nametable_x := 0 } }
  if control.nametable_y then
    { p with temp_address_register := { p.temp_address_register with nametable_y := 1 } }
  else
    { p with temp_address_register := { p.temp_address_register with nametable_y := 0 } }

def write_mask_register (p : PPUState) (value : Nat) : PPUState :=
  { p with mask_register := Mask.from_bits value }

def write_oam_address_register (p : PPUState) (value : Nat) : PPUState :=
  { p with oam_address_register := value }

def write_oam_data_register (p : PPUState) (value : Nat) : PPUState :=
  let p := p.set_oam_data_value value
  { p with oam_address_register := (p.oam_address_register + 1) % 256 }

def write_scroll_register (p : PPUState) (value : Nat) : PPUState :=
  if !p.latch then
    { p with fine_x := value &&& 0x7,
             temp_address_register := p.temp_address_register.set_coarse_x (value >>> 3),
             latch := true }
  else
    { p with address_register := p.address_register.set_fine_y (value &&& 0x7),
             temp_address_register := p.temp_address_register.set_coarse_y (value >>> 3),
             latch := false }

def write_address_register (p : PPUState) (value : Nat) : PPUState :=
  if !p.latch then
    let address := p.temp_address_register.address
    let address := ((value &&& 0x3F) <<< 8) ||| (address &&& 0xFF)
    { p with temp_address_register := p.temp_address_register.set address, latch := true }
  else
    let address := p.temp_address_register.address
    let address := (address &&& 0xFF00) ||| (value % 256)
    { p with temp_address_register := p.temp_address_register.set address,
             address_register := p.address_register.set address,
             latch := false }

/-- `PPU::write_data_register` ($2007 write): writes through `write_u8`
at the unmasked 15-bit address in V, then auto-increments V. -/
def write_data_register (c : Cart) (p : PPUState) (value : Nat) : Option (Cart × PPUState) :=
  let address := p.address_register.address
  (p.write_u8 c address value).map fun cp => (cp.1, cp.2.increment_address_register)

def write_oam_dma_register_seq (p : PPUState) (value : Nat) : PPUState :=
  p.write_oam_data_register value

end PPUState


/-! ## Packed-address lemmas for the loopy register -/

namespace LoopyRegister

theorem address_lt (l : LoopyRegister) (hx : l.nametable_x ≤ 1) (hy : l.nametable_y ≤ 1) :
    l.address < 2 ^ 15 := by
  have h1 : l.fine_y_masked <<< 12 < 2 ^ 15 := by
    have := Nat.and_le_right (n := l.fine_y) (m := 0b111)
    simp only [fine_y_masked, Nat.shiftLeft_eq] at *
    omega
  have h2 : l.nametable_y <<< 11 < 2 ^ 15 := by
    simp only [Nat.shiftLeft_eq]
    omega
  have h3 : l.nametable_x <<< 10 < 2 ^ 15 := by
    simp only [Nat.shiftLeft_eq]
    omega
  have h4 : l.coarse_y_masked <<< 5 < 2 ^ 15 := by
    have := Nat.and_le_right (n := l.coarse_y) (m := 0b11111)
    simp only [coarse_y_masked, Nat.shiftLeft_eq] at *
    omega
  have h5 : l.coarse_x_masked < 2 ^ 15 := by
    have := Nat.and_le_right (n := l.coarse_x) (m := 0b11111)
    simp only [coarse_x_masked] at *
    omega
  exact Nat.or_lt_two_pow (Nat.or_lt_two_pow (Nat.or_lt_two_pow (Nat.or_lt_two_pow h1 h2) h3) h4) h5

theorem set_nametable_x_le (l : LoopyRegister) (v : Nat) : (l.set v).nametable_x ≤ 1 := by
  simp only [set]
  exact Nat.and_le_right

theorem set_nametable_y_le (l : LoopyRegister) (v : Nat) : (l.set v).nametable_y ≤ 1 := by
  simp only [set]
  exact Nat.and_le_right

/-- Disjoint five-field packing: the ors in `LoopyRegister::address` are
plain addition when the fields are in range. -/
theorem pack_or_eq_add (fy ny nx cy cx : Nat) (hfy : fy < 8) (hny : ny < 2)
    (hnx : nx < 2) (hcy : cy < 32) (hcx : cx < 32) :
    (fy <<< 12) ||| (ny <<< 11) ||| (nx <<< 10) ||| (cy <<< 5) ||| cx =
      fy * 4096 + ny * 2048 + nx * 1024 + cy * 32 + cx := by
  have e12 : fy <<< 12 = 2 ^ 12 * fy := by rw [Nat.shiftLeft_eq]; ring
  have e11 : ny <<< 11 = 2 ^ 11 * ny := by rw [Nat.shiftLeft_eq]; ring
  have e10 : nx <<< 10 = 2 ^ 10 * nx := by rw [Nat.shiftLeft_eq]; ring
  have e5 : cy <<< 5 = 2 ^ 5 * cy := by rw [Nat.shiftLeft_eq]; ring
  have s4 : cx < 2 ^ 5 := by omega
  have s3 : (cy <<< 5) ||| cx < 2 ^ 10 := by
    refine Nat.or_lt_two_pow ?_ (by omega)
    rw [e5]; omega
  have s2 : (nx <<< 10) ||| ((cy <<< 5) ||| cx) < 2 ^ 11 := by
    refine Nat.or_lt_two_pow ?_ (by omega)
    rw [e10]; omega
  have s1 : (ny <<< 11) ||| ((nx <<< 10) ||| ((cy <<< 5) ||| cx)) < 2 ^ 12 := by
    refine Nat.or_lt_two_pow ?_ (by omega)
    rw [e11]; omega
  rw [Nat.lor_assoc, Nat.lor_assoc, Nat.lor_assoc, e12,
    ← Nat.mul_add_lt_is_or s1, e11,
    ← Nat.mul_add_lt_is_or s2, e10,
    ← Nat.mul_add_lt_is_or s3, e5,
    ← Nat.mul_add_lt_is_or s4]
  ring

theorem set_address (l : LoopyRegister) (v : Nat) : (l.set v).address = v % 2 ^ 15 := by
  have e7 : ∀ x : Nat, x &&& 7 = x % 8 := fun x => Nat.and_pow_two_sub_one_eq_mod x 3
  have e1 : ∀ x : Nat, x &&& 1 = x % 2 := fun x => Nat.and_pow_two_sub_one_eq_mod x 1
  have e31 : ∀ x : Nat, x &&& 31 = x % 32 := fun x => Nat.and_pow_two_sub_one_eq_mod x 5
  have d12 : ∀ x : Nat, x >>> 12 = x / 4096 := fun x => Nat.shiftRight_eq_div_pow x 12
  have d11 : ∀ x : Nat, x >>> 11 = x / 2048 := fun x => Nat.shiftRight_eq_div_pow x 11
  have d10 : ∀ x : Nat, x >>> 10 = x / 1024 := fun x => Nat.shiftRight_eq_div_pow x 10
  have d5 : ∀ x : Nat, x >>> 5 = x / 32 := fun x => Nat.shiftRight_eq_div_pow x 5
  simp only [set, address, coarse_x_masked, coarse_y_masked, fine_y_masked]
  rw [pack_or_eq_add]
  · simp only [e7, e1, e31, d12, d11, d10, d5]
    omega
  · simp only [e7]; omega
  · simp only [e1]; omega
  · simp only [e1]; omega
  · simp only [e31]; omega
  · simp only [e31]; omega

theorem increment_address (l : LoopyRegister) (hx : l.nametable_x ≤ 1)
    (hy : l.nametable_y ≤ 1) (vm : Bool) :
    (l.increment vm).address = (l.address + (if vm then 32 else 1)) % 2 ^ 15 := by
  have hlt := address_lt l hx hy
  cases vm <;> simp [increment, set_address] <;> omega

end LoopyRegister

/-! ## Concrete machine fixtures used by the evaluation theorems -/

/-- An NROM cartridge with zeroed memories and Horizontal mirroring. -/
def cart_h : Cart := ⟨fun _ => 0, fun _ => 0, MapperState.nrom 1 1, Mirroring.horizontal⟩

/-- An NROM cartridge with zeroed memories and Vertical mirroring. -/
def cart_v : Cart := ⟨fun _ => 0, fun _ => 0, MapperState.nrom 1 1, Mirroring.vertical⟩

/-- C1: the spec claims that under Horizontal mirroring $2000 and $2400
refer to the same nametable byte.  In the code both mirroring variants
reduce every nametable address to `memory[address & 0x7FF]`, i.e. the
{A,B,A,B} layout: a byte written at $2400 is NOT visible at $2000 (the
claim predicts it is), while a byte written at $2800 IS visible at
$2000.  This theorem evaluates the code at that failing input. -/
theorem C1_horizontal_mirroring_diverges :
    ((PPUState.new.write_u8 cart_h 0x2400 1).bind fun cp =>
        cp.2.read_u8 cp.1 0x2000) = some 0 ∧
    ((PPUState.new.write_u8 cart_h 0x2400 1).bind fun cp =>
        cp.2.read_u8 cp.1 0x2400) = some 1 ∧
    ((PPUState.new.write_u8 cart_h 0x2800 1).bind fun cp =>
        cp.2.read_u8 cp.1 0x2000) = some 1 := by
  refine ⟨rfl, rfl, rfl⟩

/-- C7: a PPU write at $3F10/$3F14/$3F18/$3F1C is read back at
$3F00/$3F04/$3F08/$3F0C — the palette internal mirrors alias those four
offsets onto $00/$04/$08/$0C. -/
theorem C7_palette_mirrors (c : Cart) (p : PPUState) (v : Nat) :
    ((p.write_u8 c 0x3F10 v).bind fun cp => cp.2.read_u8 cp.1 0x3F00) = some v ∧
    ((p.write_u8 c 0x3F14 v).bind fun cp => cp.2.read_u8 cp.1 0x3F04) = some v ∧
    ((p.write_u8 c 0x3F18 v).bind fun cp => cp.2.read_u8 cp.1 0x3F08) = some v ∧
    ((p.write_u8 c 0x3F1C v).bind fun cp => cp.2.read_u8 cp.1 0x3F0C) = some v := by
  refine ⟨rfl, rfl, rfl, rfl⟩

/-- C9: `read_u8` masks every address to 14 bits, so its fall-through
panic arm is unreachable for every input (under the two supported
mirrorings); `write_u8` performs no mask, so a $2007 write while the
15-bit V register holds an address in $4000–$7FFF reaches the panicking
fall-through arm (`none`). -/
theorem C9_read_total_write_not_total (c : Cart) (p : PPUState)
    (hm : c.mirroring = Mirroring.horizontal ∨ c.mirroring = Mirroring.vertical) :
    (∀ address, (p.read_u8 c address).isSome) ∧
    (∀ value, 0x4000 ≤ p.address_register.address →
        p.write_data_register c value = none) := by
  constructor
  · intro address
    have h1 : address &&& 0x3FFF ≤ 0x3FFF := Nat.and_le_right
    have h2 : (address &&& 0x3FFF) &&& 0xFFF ≤ 0xFFF := Nat.and_le_right
    simp only [PPUState.read_u8, PPUState.read_from_internal_memory]
    rcases hm with hm | hm <;> rw [hm] <;> split_ifs <;> simp_all <;> omega
  · intro value hv
    simp only [PPUState.write_data_register, PPUState.write_u8]
    split_ifs <;> simp_all <;> omega

/-- Concrete witness state for `C9_read_total_write_not_total`: V = $4000
(`fine_y = 4`), which the loopy register can hold. -/
def ppu_v4000 : PPUState :=
  { PPUState.new with address_register := ⟨0, 0, 0, 0, 4⟩ }

theorem C9_read_total_write_not_total_witness :
    (cart_v.mirroring = Mirroring.horizontal ∨ cart_v.mirroring = Mirroring.vertical) ∧
    (0x4000 ≤ ppu_v4000.address_register.address) ∧
    ppu_v4000.write_data_register cart_v 0 = none := by
  refine ⟨Or.inr rfl, by decide, ?_⟩
  exact (C9_read_total_write_not_total cart_v ppu_v4000 (Or.inr rfl)).2 0 (by decide)


/-! ## C4: the $2007 read pipeline -/

/-- PPU state whose 15-bit V register holds $4000 (`fine_y = 4`) with a
stale read buffer of $55; CHR memory holds $77 everywhere. -/
def ppu_c4 : PPUState :=
  { PPUState.new with address_register := ⟨0, 0, 0, 0, 4⟩, data_buffer := 0x55 }

def cart_c4 : Cart := ⟨fun _ => 0, fun _ => 0x77, MapperState.nrom 1 1, Mirroring.vertical⟩

/-- C4 counterexample: with V = $4000 — outside the claim's
$3F00–$3FFF palette window — the claim says the read returns the stale
buffer ($55); the code's bypass condition is `address >= 0x3F00` on the
raw 15-bit V, so the read returns the fresh value ($77) instead. -/
theorem C4_claim_counterexample :
    ¬(0x3F00 ≤ ppu_c4.address_register.address ∧
        ppu_c4.address_register.address ≤ 0x3FFF) ∧
    ppu_c4.data_buffer = 0x55 ∧
    (PPUState.read_data_register cart_c4 ppu_c4).map Prod.fst = some 0x77 := by
  refine ⟨by decide, rfl, rfl⟩

/-- Four consecutive $2007 reads, returning the four values. -/
def read_2007_four_times (c : Cart) (p : PPUState) : Option (Nat × Nat × Nat × Nat) := do
  let (r1, p1) ← PPUState.read_data_register c p
  let (r2, p2) ← PPUState.read_data_register c p1
  let (r3, p3) ← PPUState.read_data_register c p2
  let (r4, _) ← PPUState.read_data_register c p3
  pure (r1, r2, r3, r4)

/-- Power-on PPU with VRAM[$2108..$210B] = {AA, BB, CC, DD} (stored at
nametable offsets $108..$10B) and a stale buffer of $99. -/
def ppu_scenario_base : PPUState :=
  { PPUState.new with
    data_buffer := 0x99,
    memory := fun i =>
      if i = 0x108 then 0xAA else if i = 0x109 then 0xBB
      else if i = 0x10A then 0xCC else if i = 0x10B then 0xDD else 0 }

/-- The spec scenario: $2006 ← $21, $2006 ← $08, then four $2007 reads. -/
def scenario_2007_reads : Option (Nat × Nat × Nat × Nat) :=
  read_2007_four_times cart_v
    ((ppu_scenario_base.write_address_register 0x21).write_address_register 0x08)

/-- C4 (amended): a $2007 read returns the stale buffer and the bypass
applies whenever the raw 15-bit V is at or above $3F00 (not only in
$3F00–$3FFF); the buffer is refilled from V and V is incremented by 1 or
32 per `Control.VramIncrement`.  The spec scenario returns
`buffer, AA, BB, CC`. -/
theorem C4_data_register_read (c : Cart) (p : PPUState) (fresh : Nat)
    (hx : p.address_register.nametable_x ≤ 1)
    (hy : p.address_register.nametable_y ≤ 1)
    (h : p.read_u8 c p.address_register.address = some fresh) :
    PPUState.read_data_register c p = some
      ((if 0x3F00 ≤ p.address_register.address then fresh else p.data_buffer),
       { p with
          data_buffer := fresh,
          address_register := p.address_register.increment
            p.control_register.vram_address_increment }) ∧
    (p.address_register.increment p.control_register.vram_address_increment).address =
      (p.address_register.address +
        (if p.control_register.vram_address_increment then 32 else 1)) % 2 ^ 15 ∧
    scenario_2007_reads = some (0x99, 0xAA, 0xBB, 0xCC) := by
  refine ⟨?_, LoopyRegister.increment_address _ hx hy _, rfl⟩
  simp [PPUState.read_data_register, PPUState.increment_address_register, h, ge_iff_le]

theorem C4_data_register_read_witness :
    PPUState.new.address_register.nametable_x ≤ 1 ∧
    PPUState.new.address_register.nametable_y ≤ 1 ∧
    PPUState.new.read_u8 cart_v PPUState.new.address_register.address = some 0 ∧
    scenario_2007_reads = some (0x99, 0xAA, 0xBB, 0xCC) := by
  refine ⟨by decide, by decide, rfl, ?_⟩
  exact (C4_data_register_read cart_v PPUState.new 0 (by decide) (by decide) rfl).2.2


/-! ## Joypad (`bus/joypad.rs`) -/

structure Joypad where
  buttons_pressed : Nat
  state : Nat
  deriving Repr, DecidableEq

namespace Joypad

def new : Joypad := ⟨0, 0⟩

/-- `Joypad::read`: returns the top bit of the shift register (in bit 0)
and shifts left (`u8`, so the shifted-out bit is dropped). -/
def read (j : Joypad) : Nat × Joypad :=
  let data := if j.state &&& 0x80 > 0 then 1 else 0
  (data, { j with state := (j.state <<< 1) % 256 })

/-- `Joypad::write`: reloads the shift register from the pressed-button
bitmask. -/
def write (j : Joypad) : Joypad := { j with state := j.buttons_pressed }

def press_button (j : Joypad) (button : Nat) : Joypad :=
  { j with buttons_pressed := j.buttons_pressed ||| button }

/-- Iterated reads, discarding the returned bits. -/
def read_n (j : Joypad) : Nat → Joypad
  | 0 => j
  | n + 1 => ((read_n j n).read).2

theorem read_n_state (j : Joypad) (hs : j.state < 256) (n : Nat) :
    (read_n j n).state = j.state * 2 ^ n % 256 := by
  induction n with
  | zero => simpa [read_n] using (Nat.mod_eq_of_lt hs).symm
  | succ k ih =>
      have : (read_n j (k + 1)).state = ((read_n j k).state <<< 1) % 256 := rfl
      rw [this, ih, Nat.shiftLeft_eq, Nat.mod_mul_mod]
      ring_nf

end Joypad

/-- C10: after a write to the joypad port (reloading the shift register
from the pressed-button bitmask) followed by eight reads, every further
read returns 0 until the next write: each read shifts in a zero bit. -/
theorem C10_joypad_reads_exhaust (j : Joypad) (hb : j.buttons_pressed < 256)
    (n : Nat) (hn : 8 ≤ n) :
    ((j.write.read_n n).read).1 = 0 := by
  have hs : (j.write).state < 256 := hb
  have hstate : (j.write.read_n n).state = 0 := by
    rw [Joypad.read_n_state _ hs n]
    have : j.write.state * 2 ^ n = j.write.state * 2 ^ (n - 8) * 256 := by
      have h8 : n = (n - 8) + 8 := by omega
      rw [h8, Nat.pow_add]
      ring_nf
      norm_num [Nat.mul_assoc]
    rw [this, Nat.mul_mod_left]
  simp [Joypad.read, hstate]

theorem C10_joypad_reads_exhaust_witness :
    (⟨0xA5, 0⟩ : Joypad).buttons_pressed < 256 ∧ (8 : Nat) ≤ 9 ∧
    (((⟨0xA5, 0⟩ : Joypad).write.read_n 9).read).1 = 0 := by
  refine ⟨by decide, by decide, ?_⟩
  exact C10_joypad_reads_exhaust ⟨0xA5, 0⟩ (by decide) 9 (by decide)

/-! ## iNES header parsing (`cartridge/mod.rs`, `Cartridge::read_header`)

The nom combinators used by the source are modelled over byte lists:
`streaming::take` fails on short input, `be_u8` consumes one byte. -/

def nom_take (n : Nat) (data : List Nat) : Option (List Nat × List Nat) :=
  if n ≤ data.length then some (data.drop n, data.take n) else none

def nom_be_u8 : List Nat → Option (List Nat × Nat)
  | [] => none
  | b :: rest => some (rest, b)

structure Header where
  name : List Nat
  prg_banks_count : Nat
  chr_banks_count : Nat
  mapper_flags : Nat
  prg_ram_size : Nat
  mapper_id : Nat
  mirroring : Mirroring
  deriving Repr, DecidableEq

/-- `Cartridge::read_header`.  `mapper_flags` keeps the low nibble of
flag byte 1 (`BIT_FLAGS_MASK`); the NES 2.0 marker in flag byte 2 aborts
the parse; the mapper id is assembled as
`(mapper_flags_byte & 0b11110000) | (mapper_flags_2_byte >> 4)`. -/
def read_header (data : List Nat) : Option (List Nat × Header) := do
  let (data, name) ← nom_take 4 data
  let (data, prg_banks_count) ← nom_be_u8 data
  let (data, chr_banks_count) ← nom_be_u8 data
  let (data, mapper_flags_byte) ← nom_be_u8 data
  let cartridge_mapper_flags := mapper_flags_byte &&& 0b1111
  let mirroring :=
    if cartridge_mapper_flags.testBit 3 then Mirroring.fourScreen
    else if cartridge_mapper_flags.testBit 0 then Mirroring.vertical
    else Mirroring.horizontal
  let (data, mapper_flags_2_byte) ← nom_be_u8 data
  if (mapper_flags_2_byte &&& 0b1100) >>> 2 = 2 then none
  else do
    let mapper := (mapper_flags_byte &&& 0b11110000) ||| (mapper_flags_2_byte >>> 4)
    let (data, prg_ram_size) ← nom_be_u8 data
    let (data, _test) ← nom_be_u8 data
    let (data, _) ← nom_take (2 + 4) data
    let data ←
      if cartridge_mapper_flags.testBit 2 then (nom_take 512 data).map Prod.fst
      else some data
    some (data, ⟨name, prg_banks_count, chr_banks_count, cartridge_mapper_flags,
      prg_ram_size, mapper, mirroring⟩)

/-- A minimal 16-byte iNES header with flag byte 1 = $10 (mapper low
nibble 1 per iNES) and flag byte 2 = $00. -/
def c8_header_bytes : List Nat :=
  [78, 69, 83, 26, 1, 1, 0x10, 0x00, 0, 0, 0, 0, 0, 0, 0, 0]

/-- C8: the claim (and the iNES standard) says the mapper id is
`(flag2 & 0xF0) | (flag1 >> 4)` = 1 for this header; the code assembles
`(flag1 & 0xF0) | (flag2 >> 4)` = 16 — the nibble roles are swapped. -/
theorem C8_mapper_id_nibbles_swapped :
    (read_header c8_header_bytes).map (fun r => r.2.mapper_id) = some 16 ∧
    ((0x00 &&& 0xF0) ||| (0x10 >>> 4) : Nat) = 1 ∧
    (16 : Nat) ≠ 1 := by
  refine ⟨rfl, rfl, by decide⟩


/-! ## The PPU dot state machine (`PPU::tick` and its helpers)

Nothing below is inspected by the claim theorems directly — the
machine-level theorems only project bus/CPU fields — but `Bus::tick`
drives three PPU dots per CPU cycle, so the dot machine is embedded in
full.  Reads that can panic make the whole tick `Option`-valued. -/

def flip_byte_util (byte : Nat) : Nat :=
  let byte := (byte &&& 0xF0) >>> 4 ||| (byte &&& 0x0F) <<< 4
  let byte := (byte &&& 0xCC) >>> 2 ||| (byte &&& 0x33) <<< 2
  (byte &&& 0xAA) >>> 1 ||| (byte &&& 0x55) <<< 1

/-- Iterate `f` over indices `0, 1, …, n-1` in increasing order. -/
def fold_range {α : Type} (f : α → Nat → α) : Nat → α → α
  | 0, a => a
  | n + 1, a => f (fold_range f n a) n

namespace PPUState

def is_end_of_frame (p : PPUState) : Bool :=
  p.scanlines = 241 ∧ p.cycles = 1

def clear_sprites (p : PPUState) : PPUState :=
  { p with scanline_sprites := fun i =>
      if i < 8 then OamSprite.new_empty else p.scanline_sprites i }

def new_frame_reset (p : PPUState) : PPUState :=
  let p := { p with status_register := p.status_register.reset }
  p.clear_sprites

def update_background_shifters (p : PPUState) : PPUState :=
  if p.mask_register.is_background_enabled then
    { p with
      background_shifter_pattern_low := (p.background_shifter_pattern_low <<< 1) % 65536,
      background_shifter_pattern_high := (p.background_shifter_pattern_high <<< 1) % 65536,
      background_shifter_attribute_low := (p.background_shifter_attribute_low <<< 1) % 65536,
      background_shifter_attribute_high := (p.background_shifter_attribute_high <<< 1) % 65536 }
  else
    p

def update_foreground_shifters (p : PPUState) : PPUState :=
  if p.mask_register.is_foreground_enabled ∧ p.cycles ≥ 1 ∧ p.cycles ≤ 257 then
    fold_range (fun p i =>
      if (p.scanline_sprites i).x > 0 then
        { p with scanline_sprites := fun k =>
            if k = i then { p.scanline_sprites i with x := (p.scanline_sprites i).x - 1 }
            else p.scanline_sprites k }
      else
        { p with
          sprite_shifter_pattern_low := fun k =>
            if k = i then (p.sprite_shifter_pattern_low i <<< 1) % 256
            else p.sprite_shifter_pattern_low k,
          sprite_shifter_pattern_high := fun k =>
            if k = i then (p.sprite_shifter_pattern_high i <<< 1) % 256
            else p.sprite_shifter_pattern_high k })
      p.sprites_count p
  else
    p

def update_sprite_shifters (p : PPUState) : PPUState :=
  p.update_background_shifters.update_foreground_shifters

def increment_scroll_x (p : PPUState) : PPUState :=
  if p.mask_register.is_render_enabled then
    { p with address_register := p.address_register.increment_coarse_x }
  else
    p

def increment_scroll_y (p : PPUState) : PPUState :=
  if p.mask_register.is_render_enabled then
    { p with address_register := p.address_register.increment_coarse_y }
  else
    p

def transfer_x_address (p : PPUState) : PPUState :=
  if p.mask_register.is_render_enabled then
    { p with address_register := p.address_register.transfer_x_from p.temp_address_register }
  else
    p

def transfer_y_address (p : PPUState) : PPUState :=
  if p.mask_register.is_render_enabled then
    { p with address_register := p.address_register.transfer_y_from p.temp_address_register }
  else
    p

def check_nmi_interrupt (p : PPUState) : PPUState :=
  if p.scanlines ≥ 241 ∧ p.scanlines < 262 then
    if p.is_end_of_frame then
      let p := { p with status_register := { p.status_register with vertical_blank := true } }
      if p.control_register.generate_nmi then { p with nmi_interrupt := true } else p
    else
      p
  else
    p

def load_background_shifters (p : PPUState) : PPUState :=
  { p with
    background_shifter_pattern_low :=
      (p.background_shifter_pattern_low &&& 0xFF00) ||| p.next_background_tile_lsb,
    background_shifter_pattern_high :=
      (p.background_shifter_pattern_high &&& 0xFF00) ||| p.next_background_tile_msb,
    background_shifter_attribute_low :=
      (p.background_shifter_attribute_low &&& 0xFF00) |||
        (if p.next_background_tile_attribute &&& 0b01 > 0 then 0xFF else 0x00),
    background_shifter_attribute_high :=
      (p.background_shifter_attribute_high &&& 0xFF00) |||
        (if p.next_background_tile_attribute &&& 0b10 > 0 then 0xFF else 0x00) }

/-- `PPU::load_background_info`: the 8-dot background fetch cycle. -/
def load_background_info (c : Cart) (p : PPUState) : Option PPUState :=
  match (p.cycles - 1) % 8 with
  | 0 => do
      let p := p.load_background_shifters
      let tile_id ← p.read_from_internal_memory c p.address_register.vram_address
      some { p with next_background_tile_id := tile_id }
  | 2 => do
      let address := 0x03C0 ||| p.address_register.next_tile_attribute_address
      let attr ← p.read_from_internal_memory c address
      let attr := if p.address_register.coarse_y_masked &&& 0x2 ≠ 0 then attr >>> 4 else attr
      let attr := if p.address_register.coarse_x_masked &&& 0x2 ≠ 0 then attr >>> 2 else attr
      some { p with next_background_tile_attribute := attr }
  | 4 => do
      let address := if p.control_register.background_pattern_address then 1 <<< 12 else 0
      let address := address + (p.next_background_tile_id <<< 4)
      let address := address + p.address_register.fine_y_masked
      let lsb ← p.read_u8 c address
      some { p with next_background_tile_lsb := lsb }
  | 6 => do
      let address := if p.control_register.background_pattern_address then 1 <<< 12 else 0
      let address := address + (p.next_background_tile_id <<< 4)
      let address := address + p.address_register.fine_y_masked
      let address := address + 8
      let msb ← p.read_u8 c address
      some { p with next_background_tile_msb := msb }
  | 7 => some p.increment_scroll_x
  | _ => some p

/-- The `while i < 64 && sprites_count < 9` scan in
`PPU::evaluate_sprites`. -/
def evaluate_sprites_loop (p : PPUState) (i : Nat) : PPUState :=
  if i < 64 ∧ p.sprites_count < 9 then
    let diff : Int := p.scanlines - ((p.oam_sprites i).y : Int)
    let p :=
      if diff ≥ 0 ∧ diff < (p.control_register.get_sprite_size : Int) ∧ p.sprites_count < 8 then
        let p :=
          if p.sprites_count < 8 then
            let p := if i = 0 then { p with has_sprite_zero_hit := true } else p
            { p with scanline_sprites := fun k =>
                if k = p.sprites_count then p.oam_sprites i else p.scanline_sprites k }
          else p
        { p with sprites_count := p.sprites_count + 1 }
      else p
    evaluate_sprites_loop p (i + 1)
  else
    p
termination_by 64 - i

def evaluate_sprites (p : PPUState) : PPUState :=
  if p.scanlines ≥ 0 ∧ p.cycles = 256 + 1 then
    let p := p.clear_sprites
    let p := { p with sprites_count := 0 }
    let p := { p with
      sprite_shifter_pattern_low := fun i => if i < 8 then 0 else p.sprite_shifter_pattern_low i,
      sprite_shifter_pattern_high := fun i => if i < 8 then 0 else p.sprite_shifter_pattern_high i }
    let p := p.evaluate_sprites_loop 0
    { p with status_register :=
        { p.status_register with sprite_overflow := p.sprites_count ≥ 8 } }
  else
    p

/-- `PPU::get_sprite_pattern_address_low`: `as u16` casts of the signed
`scanlines - y` difference wrap modulo 2^16 (and `& 0x7` is `emod 8`). -/
def get_sprite_pattern_address_low (p : PPUState) (sprite : OamSprite) : Nat :=
  if ¬p.control_register.sprite_size then
    let sprite_pattern_bit : Nat := if p.control_register.sprite_pattern_address then 1 else 0
    if sprite.attr &&& 0x80 = 0 then
      (sprite_pattern_bit <<< 12) ||| (sprite.id <<< 4) |||
        ((p.scanlines - (sprite.y : Int)).emod 65536).toNat
    else
      (sprite_pattern_bit <<< 12) ||| (sprite.id <<< 4) |||
        ((7 - (p.scanlines - (sprite.y : Int))).emod 65536).toNat
  else
    if sprite.attr &&& 0x80 = 0 then
      if p.scanlines - (sprite.y : Int) < 8 then
        ((sprite.id &&& 0x1) <<< 12) ||| ((sprite.id &&& 0xEF) <<< 4) |||
          ((p.scanlines - (sprite.y : Int)).emod 8).toNat
      else
        ((sprite.id &&& 0x1) <<< 12) ||| (((sprite.id &&& 0xEF) + 1) <<< 4) |||
          ((p.scanlines - (sprite.y : Int)).emod 8).toNat
    else
      if p.scanlines - (sprite.y : Int) < 8 then
        ((sprite.id &&& 0x1) <<< 12) ||| (((sprite.id &&& 0xEF) + 1) <<< 4) |||
          ((7 - (p.scanlines - (sprite.y : Int))).emod 8).toNat
      else
        ((sprite.id &&& 0x1) <<< 12) ||| ((sprite.id &&& 0xEF) <<< 4) |||
          ((7 - (p.scanlines - (sprite.y : Int))).emod 8).toNat

/-- The `for i in 0..sprites_count` body of `prepare_sprite_shifters`. -/
def prepare_sprite_shifters_loop (c : Cart) (p : PPUState) : Nat → Option PPUState
  | 0 => some p
  | n + 1 => do
      let p ← p.prepare_sprite_shifters_loop c n
      let sprite := p.scanline_sprites n
      let sprite_pattern_address_low := p.get_sprite_pattern_address_low sprite
      let sprite_pattern_address_high := (sprite_pattern_address_low + 8) % 65536
      let bits_low ← p.read_u8 c sprite_pattern_address_low
      let bits_high ← p.read_u8 c sprite_pattern_address_high
      let bits_low := if sprite.attr &&& 0x40 > 0 then flip_byte_util bits_low else bits_low
      let bits_high := if sprite.attr &&& 0x40 > 0 then flip_byte_util bits_high else bits_high
      some { p with
        sprite_shifter_pattern_low := fun k =>
          if k = n then bits_low else p.sprite_shifter_pattern_low k,
        sprite_shifter_pattern_high := fun k =>
          if k = n then bits_high else p.sprite_shifter_pattern_high k }

def prepare_sprite_shifters (c : Cart) (p : PPUState) : Option PPUState :=
  if p.cycles = 340 then p.prepare_sprite_shifters_loop c p.sprites_count else some p

def get_background_pixel_info (p : PPUState) : Nat × Nat :=
  if p.mask_register.is_background_enabled then
    if p.mask_register.leftmost_show_background ∧ p.cycles > 8 then
      let mux := 0x8000 >>> p.fine_x
      let plane_pixel_0 : Nat := if p.background_shifter_pattern_low &&& mux > 0 then 1 else 0
      let plane_pixel_1 : Nat := if p.background_shifter_pattern_high &&& mux > 0 then 1 else 0
      let background_pixel := (plane_pixel_1 <<< 1) ||| plane_pixel_0
      let pixel_palette_0 : Nat := if p.background_shifter_attribute_low &&& mux > 0 then 1 else 0
      let pixel_palette_1 : Nat := if p.background_shifter_attribute_high &&& mux > 0 then 1 else 0
      let background_pixel_palette := (pixel_palette_1 <<< 1) ||| pixel_palette_0
      (background_pixel, background_pixel_palette)
    else
      (0, 0)
  else
    (0, 0)

/-- The first-opaque-sprite scan in `get_sprite_pixel_info`; returns
`(pixel, palette, priority)` and the state (the sprite-zero-rendering
flag is set when sprite 0 produces the pixel). -/
def get_sprite_pixel_loop (p : PPUState) (i : Nat) : Nat × Nat × Bool × PPUState :=
  if h : i < p.sprites_count then
    if (p.scanline_sprites i).x = 0 then
      let pixel_low : Nat := if p.sprite_shifter_pattern_low i &&& 0x80 > 0 then 1 else 0
      let pixel_high : Nat := if p.sprite_shifter_pattern_high i &&& 0x80 > 0 then 1 else 0
      let pixel := (pixel_high <<< 1) ||| pixel_low
      let palette := ((p.scanline_sprites i).attr &&& 0x3) + 0x4
      if pixel ≠ 0 then
        let p := if i = 0 then { p with is_sprite_zero_hit_rendering := true } else p
        (pixel, palette, (p.scanline_sprites i).attr &&& 0x20 = 0, p)
      else
        p.get_sprite_pixel_loop (i + 1)
    else
      p.get_sprite_pixel_loop (i + 1)
  else
    (0, 0, false, p)
termination_by p.sprites_count - i

def get_sprite_pixel_info (p : PPUState) : Nat × Nat × Bool × PPUState :=
  if p.mask_register.is_foreground_enabled then
    if p.mask_register.leftmost_show_sprites ∨ p.cycles > 8 then
      p.get_sprite_pixel_loop 0
    else
      (0, 0, false, p)
  else
    (0, 0, false, p)

def evaluate_sprite_zero_hit (p : PPUState) : PPUState :=
  if p.has_sprite_zero_hit ∧ p.is_sprite_zero_hit_rendering then
    if p.mask_register.is_background_enabled ∧ p.mask_register.is_foreground_enabled then
      if ¬(p.mask_register.leftmost_show_background ∧ p.mask_register.leftmost_show_sprites) then
        if p.cycles > 8 ∧ p.cycles ≤ 341 + 1 then
          { p with status_register := { p.status_register with sprite_zero_hit := true } }
        else p
      else
        if p.cycles > 0 ∧ p.cycles ≤ 341 + 1 then
          { p with status_register := { p.status_register with sprite_zero_hit := true } }
        else p
    else p
  else p

def evaluate_pixel (p : PPUState) (bg_pixel bg_palette fg_pixel fg_palette : Nat)
    (fg_priority : Bool) : Nat × Nat × PPUState :=
  if bg_pixel = 0 ∧ fg_pixel = 0 then (0, 0, p)
  else if bg_pixel = 0 ∧ fg_pixel > 0 then (fg_pixel, fg_palette, p)
  else if bg_pixel > 0 ∧ fg_pixel = 0 then (bg_pixel, bg_palette, p)
  else if bg_pixel > 0 ∧ fg_pixel > 0 then
    let p := p.evaluate_sprite_zero_hit
    if fg_priority then (fg_pixel, fg_palette, p) else (bg_pixel, bg_palette, p)
  else (0, 0, p)

def draw_pixel (c : Cart) (p : PPUState) (x y pixel palette : Nat) : Option PPUState := do
  let color ← p.read_u8 c (0x3F00 + ((palette <<< 2) % 256) + pixel)
  some { p with screen := fun j i =>
    if j = y ∧ i = x then color else p.screen j i }

/-- `PPU::notify_cartridge`: `Mapper::scanline` is a no-op for both
supported mappers, so the cartridge is unchanged. -/
def notify_cartridge (p : PPUState) : PPUState := p

def increment_scanline (p : PPUState) : PPUState :=
  if p.cycles ≥ 341 then
    let p := { p with cycles := 0, scanlines := p.scanlines + 1 }
    if p.scanlines ≥ 262 then
      { p with scanlines := -1, completed_frame := true, odd_frame := !p.odd_frame }
    else p
  else p

/-- `PPU::tick`: one PPU dot. -/
def tick (c : Cart) (p : PPUState) : Option PPUState := do
  let p ←
    if p.scanlines ≥ -1 ∧ p.scanlines < (241 - 1) then do
      let p :=
        if p.scanlines = 0 ∧ p.cycles = 0 ∧ p.mask_register.is_render_enabled then
          { p with cycles := 1 }
        else p
      let p := if p.scanlines = -1 ∧ p.cycles = 1 then p.new_frame_reset else p
      let p ←
        if (p.cycles ≥ 2 ∧ p.cycles ≤ 257) ∨ (p.cycles ≥ 321 ∧ p.cycles ≤ 337) then
          p.update_sprite_shifters.load_background_info c
        else some p
      let p := if p.cycles = 256 then p.increment_scroll_y else p
      let p :=
        if p.cycles = 256 + 1 then p.load_background_shifters.transfer_x_address else p
      let p := p.evaluate_sprites
      let p ←
        if p.cycles = 338 ∨ p.cycles = 340 then do
          let tile_id ← p.read_from_internal_memory c p.address_register.vram_address
          some { p with next_background_tile_id := tile_id }
        else some p
      let p ← p.prepare_sprite_shifters c
      let p :=
        if p.scanlines = -1 ∧ p.cycles ≥ 280 ∧ p.cycles < 305 then p.transfer_y_address else p
      some p
    else some p
  let p := p.check_nmi_interrupt
  let (background_pixel, background_pixel_palette) := p.get_background_pixel_info
  let (foreground_pixel, foreground_pixel_palette, foreground_priority, p) :=
    p.get_sprite_pixel_info
  let (pixel, palette, p) := p.evaluate_pixel background_pixel background_pixel_palette
    foreground_pixel foreground_pixel_palette foreground_priority
  let p ←
    if p.scanlines ≥ 0 ∧ p.scanlines < 240 ∧ p.cycles > 0 ∧ p.cycles ≤ 256 then
      p.draw_pixel c (p.cycles - 1) p.scanlines.toNat pixel palette
    else some p
  let p := { p with cycles := p.cycles + 1,
                    total_cycles := (p.total_cycles + 1) % (2 ^ 64) }
  let p := p.notify_cartridge
  some p.increment_scanline

end PPUState


/-! ## The machine: Bus (`bus/mod.rs`) + CPU (`cpu/processor.rs`)

`Bus` owns the 2 KiB CPU RAM, the CPU cycle counter, the PPU, the
cartridge and the two joypads; the CPU register file is bundled into the
same record so machine-level operations are plain state transformers. -/

structure Machine where
  cpu_memory : Nat → Nat
  cpu_cycles : Nat
  ppu : PPUState
  cart : Cart
  joypad1 : Joypad
  joypad2 : Joypad
  cpu : CPURegs

namespace Machine

def ppu_tick_n (c : Cart) : Nat → PPUState → Option PPUState
  | 0, p => some p
  | n + 1, p => do
      let p ← PPUState.tick c p
      ppu_tick_n c n p

/-- `Bus::tick`: advance the CPU cycle counter and run three PPU dots
per CPU cycle. -/
def tick (m : Machine) (cycles : Nat) : Option Machine :=
  (ppu_tick_n m.cart (cycles * 3) m.ppu).map fun p =>
    { m with cpu_cycles := m.cpu_cycles + cycles, ppu := p }

def poll_nmi_interrupt (m : Machine) : Bool := m.ppu.nmi_interrupt

def nmi_handled (m : Machine) : Machine :=
  { m with ppu := { m.ppu with nmi_interrupt := false } }

/-- `Bus::read_memory_u8`: the CPU address-space read dispatch.  The
$2008–$3FFF IO-mirror arm recurses on `index & 0x2007`; the recursion
depth is at most one (the masked index lands on the named PPU register
arms), so it is implemented with structural fuel, `none` at fuel 0 being
unreachable from the public entry point.  The final fall-through (which
would panic) is unreachable because the
`CARTRIDGE_PAGE_START..=usize::MAX` arm catches everything above
$4020. -/
def read_memory_u8_go : Nat → Machine → Nat → Option (Nat × Machine)
  | 0, _, _ => none
  | fuel + 1, m, index =>
    if index ≤ 0x1FFF then
      some (m.cpu_memory (index &&& 0x7FF), m)
    else if index = 0x2000 ∨ index = 0x2001 ∨ index = 0x2003 ∨ index = 0x2005 ∨
        index = 0x2006 ∨ index = 0x4014 then
      some (0, m)
    else if index = 0x2002 then
      some (m.ppu.read_status_register.1, { m with ppu := m.ppu.read_status_register.2 })
    else if index = 0x2004 then
      some (m.ppu.read_oam_data_register, m)
    else if index = 0x2007 then
      (PPUState.read_data_register m.cart m.ppu).map fun rp => (rp.1, { m with ppu := rp.2 })
    else if 0x2008 ≤ index ∧ index ≤ 0x3FFF then
      read_memory_u8_go fuel m (index &&& 0x2007)
    else if 0x4000 ≤ index ∧ index ≤ 0x4015 then
      some (0, m)
    else if index = 0x4016 ∨ index = 0x4017 then
      let joypad_index := index &&& 0x1
      if joypad_index = 0 then
        some (m.joypad1.read.1, { m with joypad1 := m.joypad1.read.2 })
      else
        some (m.joypad2.read.1, { m with joypad2 := m.joypad2.read.2 })
    else if 0x4018 ≤ index ∧ index ≤ 0x401F then
      some (0, m)
    else if 0x8000 ≤ index ∧ index ≤ 0xFFFF then
      some (m.cart.cpu_read_u8 index, m)
    else if 0x4020 ≤ index then
      some (m.cart.cpu_read_u8 index, m)
    else
      none

def read_memory_u8 (m : Machine) (index : Nat) : Option (Nat × Machine) :=
  read_memory_u8_go 2 m index

def read_memory_u16 (m : Machine) (index : Nat) : Option (Nat × Machine) := do
  let (low, m) ← m.read_memory_u8 index
  let (high, m) ← m.read_memory_u8 (index + 1)
  some (high * 256 + low, m)

/-- One iteration of the OAM-DMA copy loop in `Bus::write_memory_u8`:
read the source byte, tick, write it to OAM, tick. -/
def oam_dma_step (m : Machine) (address : Nat) : Option Machine := do
  let (value, m) ← m.read_memory_u8 address
  let m ← m.tick 1
  let m := { m with ppu := m.ppu.write_oam_dma_register_seq value }
  m.tick 1

/-- `Bus::write_memory_u8`.  The $2008–$3FFF IO-mirror and APU arms are
no-ops (their bodies are commented out / log-only in the source); the
fall-through for indices above $FFFF panics (`none`). -/
def write_memory_u8 (m : Machine) (index value : Nat) : Option Machine :=
  if index ≤ 0x1FFF then
    some { m with cpu_memory := fun i =>
      if i = (index &&& 0x7FF) then value else m.cpu_memory i }
  else if index = 0x2000 then
    some { m with ppu := m.ppu.write_control_register value }
  else if index = 0x2001 then
    some { m with ppu := m.ppu.write_mask_register value }
  else if index = 0x2003 then
    some { m with ppu := m.ppu.write_oam_address_register value }
  else if index = 0x2004 then
    some { m with ppu := m.ppu.write_oam_data_register value }
  else if index = 0x2005 then
    some { m with ppu := m.ppu.write_scroll_register value }
  else if index = 0x2006 then
    some { m with ppu := m.ppu.write_address_register value }
  else if index = 0x4014 then do
    let start_address := (value % 256) <<< 8
    let m ← if m.cpu_cycles % 2 = 1 then m.tick 1 else some m
    ((List.range 256).map (start_address + ·)).foldlM oam_dma_step m
  else if index = 0x2002 then
    some m
  else if index = 0x2007 then
    (PPUState.write_data_register m.cart m.ppu value).map fun cp =>
      { m with cart := cp.1, ppu := cp.2 }
  else if 0x2008 ≤ index ∧ index ≤ 0x3FFF then
    some m
  else if 0x4000 ≤ index ∧ index ≤ 0x4015 then
    some m
  else if index = 0x4016 ∨ index = 0x4017 then
    let joypad_index := index &&& 0x1
    if joypad_index = 0 then
      some { m with joypad1 := m.joypad1.write }
    else
      some { m with joypad2 := m.joypad2.write }
  else if 0x4018 ≤ index ∧ index ≤ 0x401F then
    some m
  else if 0x4020 ≤ index ∧ index ≤ 0xFFFF then
    some { m with cart := m.cart.cpu_write_u8 index value }
  else
    none

/-! ### CPU stack and interrupts -/

def push_stack_u8 (m : Machine) (value : Nat) : Option Machine := do
  let m ← m.write_memory_u8 (0x100 + m.cpu.stack_pointer) value
  some { m with cpu := { m.cpu with
    stack_pointer := CPURegs.wrapping_sub8 m.cpu.stack_pointer 1 } }

/-- `CPU::push_stack_u16`: high byte first, then low. -/
def push_stack_u16 (m : Machine) (value : Nat) : Option Machine := do
  let m ← m.push_stack_u8 (value / 256 % 256)
  m.push_stack_u8 (value % 256)

inductive InterruptType where
  | brk
  | irq
  | nmi
  deriving Repr, DecidableEq

structure CpuInterrupt where
  interrupt_type : InterruptType
  vector_addr : Nat
  cycles : Nat
  deriving Repr, DecidableEq

/-- `interrupts::NMI`: vector $FFFA and the source's integer-division
cycle count `(8 / 3) + 1`. -/
def NMI : CpuInterrupt := ⟨InterruptType.nmi, 0xFFFA, 8 / 3 + 1⟩

/-- `interrupts::IRQ`: vector $FFFE, `(7 / 3) + 1` cycles. -/
def IRQ : CpuInterrupt := ⟨InterruptType.irq, 0xFFFE, 7 / 3 + 1⟩

/-- `interrupts::BRK`. -/
def BRK : CpuInterrupt := ⟨InterruptType.brk, 0xFFFE, 1⟩

/-- `CPU::interrupt`: push PC, set/clear Break, set InterruptDisable and
Unused, push the status byte, tick the bus by the interrupt's cycle
count, and load PC from the vector. -/
def interrupt (m : Machine) (int : CpuInterrupt) : Option Machine := do
  let m ← m.push_stack_u16 (m.cpu.program_pointer % 65536)
  let m :=
    if int.interrupt_type = InterruptType.brk then
      { m with cpu := m.cpu.set_break_status }
    else
      { m with cpu := m.cpu.clear_break_status }
  let m := { m with cpu := m.cpu.set_interrupt_disable_status }
  let m := { m with cpu := m.cpu.set_unused_status }
  let m ← m.push_stack_u8 m.cpu.status.bits
  let m ← m.tick int.cycles
  let (vec, m) ← m.read_memory_u16 int.vector_addr
  some { m with cpu := { m.cpu with program_pointer := vec } }

/-! ### Indirect addressing and JMP (`CPU::get_opcode_data_address`,
`CPU::jmp`) -/

/-- The `MemoryAccessMode::Indirect` arm of
`CPU::get_opcode_data_address`: when the pointer's low byte is $FF the
high byte of the target is read from the START of the same page
(`pointer & 0xFF00`) instead of `pointer + 1`. -/
def get_opcode_data_address_indirect (m : Machine) (index : Nat) :
    Option (Nat × Machine) := do
  let (low, m) ← m.read_memory_u8 index
  let (high, m) ← m.read_memory_u8 (index + 1)
  let pointer := high * 256 + low
  if low = 0xFF then do
    let (b0, m) ← m.read_memory_u8 pointer
    let (b1, m) ← m.read_memory_u8 (pointer &&& 0xFF00)
    some (b1 * 256 + b0, m)
  else
    m.read_memory_u16 pointer

/-- `CPU::jmp` with the Indirect addressing mode: resolve the operand
address and load it into PC. -/
def jmp_indirect (m : Machine) : Option Machine := do
  let (address, m) ← m.get_opcode_data_address_indirect m.cpu.program_pointer
  some { m with cpu := { m.cpu with program_pointer := address } }

end Machine


/-! ## Bus-level support lemmas -/

namespace Machine

theorem tick_fields (m : Machine) (n : Nat) (m' : Machine) (h : m.tick n = some m') :
    m'.cpu_cycles = m.cpu_cycles + n ∧ m'.cpu_memory = m.cpu_memory ∧
    m'.cpu = m.cpu ∧ m'.cart = m.cart := by
  unfold tick at h
  cases hx : ppu_tick_n m.cart (n * 3) m.ppu with
  | none => rw [hx] at h; simp at h
  | some p =>
      rw [hx] at h
      simp only [Option.map_some'] at h
      cases h
      exact ⟨rfl, rfl, rfl, rfl⟩

theorem read_memory_u8_go_fields (fuel : Nat) :
    ∀ (index : Nat) (m : Machine) (r : Nat) (m' : Machine),
      read_memory_u8_go fuel m index = some (r, m') →
      m'.cpu_cycles = m.cpu_cycles ∧ m'.cpu_memory = m.cpu_memory ∧
      m'.cpu = m.cpu ∧ m'.cart = m.cart := by
  induction fuel with
  | zero => intro index m r m' h; simp [read_memory_u8_go] at h
  | succ f ih =>
    intro index m r m' h
    simp only [read_memory_u8_go] at h
    by_cases c1 : index ≤ 0x1FFF
    · rw [if_pos c1] at h; cases h; exact ⟨rfl, rfl, rfl, rfl⟩
    rw [if_neg c1] at h
    by_cases c2 : index = 0x2000 ∨ index = 0x2001 ∨ index = 0x2003 ∨ index = 0x2005 ∨
        index = 0x2006 ∨ index = 0x4014
    · rw [if_pos c2] at h; cases h; exact ⟨rfl, rfl, rfl, rfl⟩
    rw [if_neg c2] at h
    by_cases c3 : index = 0x2002
    · rw [if_pos c3] at h; cases h; exact ⟨rfl, rfl, rfl, rfl⟩
    rw [if_neg c3] at h
    by_cases c4 : index = 0x2004
    · rw [if_pos c4] at h; cases h; exact ⟨rfl, rfl, rfl, rfl⟩
    rw [if_neg c4] at h
    by_cases c5 : index = 0x2007
    · rw [if_pos c5, Option.map_eq_some'] at h
      obtain ⟨rp, hrp, h⟩ := h
      cases h
      exact ⟨rfl, rfl, rfl, rfl⟩
    rw [if_neg c5] at h
    by_cases c6 : 0x2008 ≤ index ∧ index ≤ 0x3FFF
    · rw [if_pos c6] at h
      exact ih _ m r m' h
    rw [if_neg c6] at h
    by_cases c7 : 0x4000 ≤ index ∧ index ≤ 0x4015
    · rw [if_pos c7] at h; cases h; exact ⟨rfl, rfl, rfl, rfl⟩
    rw [if_neg c7] at h
    by_cases c8 : index = 0x4016 ∨ index = 0x4017
    · rw [if_pos c8] at h
      by_cases c8a : index &&& 1 = 0
      · rw [if_pos c8a] at h; cases h; exact ⟨rfl, rfl, rfl, rfl⟩
      · rw [if_neg c8a] at h; cases h; exact ⟨rfl, rfl, rfl, rfl⟩
    rw [if_neg c8] at h
    by_cases c9 : 0x4018 ≤ index ∧ index ≤ 0x401F
    · rw [if_pos c9] at h; cases h; exact ⟨rfl, rfl, rfl, rfl⟩
    rw [if_neg c9] at h
    by_cases c10 : 0x8000 ≤ index ∧ index ≤ 0xFFFF
    · rw [if_pos c10] at h; cases h; exact ⟨rfl, rfl, rfl, rfl⟩
    rw [if_neg c10] at h
    by_cases c11 : 0x4020 ≤ index
    · rw [if_pos c11] at h; cases h; exact ⟨rfl, rfl, rfl, rfl⟩
    rw [if_neg c11] at h
    simp at h

theorem read_memory_u8_fields (index : Nat) (m : Machine) (r : Nat) (m' : Machine)
    (h : m.read_memory_u8 index = some (r, m')) :
    m'.cpu_cycles = m.cpu_cycles ∧ m'.cpu_memory = m.cpu_memory ∧
    m'.cpu = m.cpu ∧ m'.cart = m.cart :=
  read_memory_u8_go_fields 2 index m r m' h

theorem oam_dma_step_cycles (m : Machine) (a : Nat) (m' : Machine)
    (h : oam_dma_step m a = some m') : m'.cpu_cycles = m.cpu_cycles + 2 := by
  unfold oam_dma_step at h
  cases hread : m.read_memory_u8 a with
  | none => rw [hread] at h; simp at h
  | some vm =>
      obtain ⟨v, m1⟩ := vm
      rw [hread] at h
      simp only [Option.bind_eq_bind, Option.some_bind] at h
      cases htick1 : m1.tick 1 with
      | none => rw [htick1] at h; simp at h
      | some m2 =>
          rw [htick1] at h
          simp only [Option.some_bind] at h
          have e1 := (read_memory_u8_fields a m v m1 hread).1
          have e2 := (tick_fields m1 1 m2 htick1).1
          have e3 := (tick_fields _ 1 m' h).1
          simp only at e3
          omega

theorem dma_fold_cycles (l : List Nat) :
    ∀ (m m' : Machine), l.foldlM oam_dma_step m = some m' →
      m'.cpu_cycles = m.cpu_cycles + 2 * l.length := by
  induction l with
  | nil =>
      intro m m' h
      simp only [List.foldlM_nil, Option.pure_def, Option.some.injEq] at h
      cases h
      simp
  | cons a l ih =>
      intro m m' h
      rw [List.foldlM_cons] at h
      cases hstep : m.oam_dma_step a with
      | none => rw [hstep] at h; simp at h
      | some m1 =>
          rw [hstep] at h
          simp only [Option.bind_eq_bind, Option.some_bind] at h
          have e1 := oam_dma_step_cycles m a m1 hstep
          have e2 := ih m1 m' h
          simp only [List.length_cons] at *
          omega

end Machine

/-- C2: the observable cycle cost of the $4014 OAM-DMA write.  The code
ticks the bus twice per copied byte (512 cycles) plus one alignment tick
when the CPU cycle counter is odd — 512 or 513 cycles, not the 513/514
the claim states. -/
theorem C2_oam_dma_cycles (m : Machine) (value : Nat) :
    (m.write_memory_u8 0x4014 value).elim True fun m' =>
      m'.cpu_cycles = m.cpu_cycles + (if m.cpu_cycles % 2 = 1 then 513 else 512) := by
  unfold Machine.write_memory_u8
  norm_num
  by_cases hp : m.cpu_cycles % 2 = 1
  · rw [if_pos hp, if_pos hp]
    cases h1 : m.tick 1 with
    | none => exact trivial
    | some m1 =>
        simp only [Option.bind_eq_bind, Option.some_bind]
        cases h2 : ((List.range 256).map ((value % 256) <<< 8 + ·)).foldlM
            Machine.oam_dma_step m1 with
        | none => exact trivial
        | some m2 =>
            have e1 := (Machine.tick_fields m 1 m1 h1).1
            have e2 := Machine.dma_fold_cycles _ m1 m2 h2
            simp only [List.length_map, List.length_range] at e2
            simp only [Option.elim_some]
            omega
  · rw [if_neg hp, if_neg hp]
    try simp only [Option.bind_eq_bind, Option.some_bind]
    cases h2 : ((List.range 256).map ((value % 256) <<< 8 + ·)).foldlM
        Machine.oam_dma_step m with
    | none => exact trivial
    | some m2 =>
        have e2 := Machine.dma_fold_cycles _ m m2 h2
        simp only [List.length_map, List.length_range] at e2
        simp only [Option.elim_some]
        omega


/-! ## Stack and addressed-read lemmas -/

theorem wrapping_sub8_one (sp : Nat) (h0 : 0 < sp) (h1 : sp < 256) :
    CPURegs.wrapping_sub8 sp 1 = sp - 1 := by
  unfold CPURegs.wrapping_sub8
  omega

namespace Machine

theorem push_stack_u8_eq (m : Machine) (v : Nat) (h : m.cpu.stack_pointer < 256) :
    m.push_stack_u8 v = some
      { m with
        cpu_memory := fun i =>
          if i = 0x100 + m.cpu.stack_pointer then v else m.cpu_memory i,
        cpu := { m.cpu with
          stack_pointer := CPURegs.wrapping_sub8 m.cpu.stack_pointer 1 } } := by
  have hmask : (0x100 + m.cpu.stack_pointer) &&& 0x7FF = 0x100 + m.cpu.stack_pointer := by
    have e : (0x100 + m.cpu.stack_pointer) &&& 0x7FF = (0x100 + m.cpu.stack_pointer) % 2048 :=
      Nat.and_pow_two_sub_one_eq_mod _ 11
    rw [e, Nat.mod_eq_of_lt (by omega)]
  unfold push_stack_u8 write_memory_u8
  rw [if_pos (show 0x100 + m.cpu.stack_pointer ≤ 0x1FFF by omega)]
  simp only [hmask, Option.bind_eq_bind, Option.some_bind]

theorem read_memory_u8_ram (m : Machine) (index : Nat) (h : index ≤ 0x1FFF) :
    m.read_memory_u8 index = some (m.cpu_memory (index &&& 0x7FF), m) := by
  simp only [read_memory_u8, read_memory_u8_go]
  rw [if_pos h]

theorem read_memory_u8_rom (m : Machine) (index : Nat) (h1 : 0x8000 ≤ index)
    (h2 : index ≤ 0xFFFF) :
    m.read_memory_u8 index = some (m.cart.cpu_read_u8 index, m) := by
  simp only [read_memory_u8, read_memory_u8_go]
  rw [if_neg (by omega), if_neg (by omega), if_neg (by omega), if_neg (by omega)]
  try exact rfl
  rw [if_neg (by omega), if_neg (by omega), if_neg (by omega), if_neg (by omega)]
  try exact rfl
  rw [if_neg (by omega), if_pos (by omega)]

theorem read_memory_u16_rom (m : Machine) (index : Nat) (h1 : 0x8000 ≤ index)
    (h2 : index + 1 ≤ 0xFFFF) :
    m.read_memory_u16 index =
      some (m.cart.cpu_read_u8 (index + 1) * 256 + m.cart.cpu_read_u8 index, m) := by
  unfold read_memory_u16
  rw [read_memory_u8_rom m index h1 (by omega)]
  simp only [Option.bind_eq_bind, Option.some_bind]
  rw [read_memory_u8_rom m (index + 1) (by omega) h2]
  simp only [Option.some_bind]

end Machine

theorem elim_bind {α β : Type} (o : Option α) (f : α → Option β) (P : β → Prop)
    (h : ∀ a, o = some a → ((f a).elim True P)) : (o >>= f).elim True P := by
  cases o with
  | none => exact trivial
  | some a => exact h a rfl

/-- C3: servicing an NMI pushes the current PC (high then low), pushes
the status byte with Break cleared and Unused (and InterruptDisable)
set, sets InterruptDisable, and loads PC from the $FFFA vector; but the
bus is ticked by `(8 / 3) + 1 = 3` cycles, not the 7 the claim (and the
spec) state. -/
theorem C3_nmi_interrupt_service (m : Machine) (h0 : 2 < m.cpu.stack_pointer)
    (h1 : m.cpu.stack_pointer < 256) :
    (m.interrupt Machine.NMI).elim True fun m' =>
      m'.cpu_memory (0x100 + m.cpu.stack_pointer) =
        m.cpu.program_pointer % 65536 / 256 % 256 ∧
      m'.cpu_memory (0x100 + m.cpu.stack_pointer - 1) =
        m.cpu.program_pointer % 65536 % 256 ∧
      m'.cpu_memory (0x100 + m.cpu.stack_pointer - 2) =
        StatusFlags.bits { m.cpu.status with
          break_flag := false, interrupt_disable := true, unused := true } ∧
      m'.cpu.status.interrupt_disable = true ∧
      m'.cpu.status.break_flag = false ∧
      m'.cpu.status.unused = true ∧
      m'.cpu.program_pointer =
        m.cart.cpu_read_u8 0xFFFB * 256 + m.cart.cpu_read_u8 0xFFFA ∧
      m'.cpu.stack_pointer = m.cpu.stack_pointer - 3 ∧
      m'.cpu_cycles = m.cpu_cycles + (8 / 3 + 1) ∧
      (8 / 3 + 1 : Nat) = 3 := by
  have hw1 : CPURegs.wrapping_sub8 m.cpu.stack_pointer 1 = m.cpu.stack_pointer - 1 :=
    wrapping_sub8_one _ (by omega) h1
  unfold Machine.interrupt Machine.push_stack_u16
  simp only [Machine.NMI]
  rw [Machine.push_stack_u8_eq m _ h1]
  simp only [Option.bind_eq_bind, Option.some_bind, hw1]
  rw [Machine.push_stack_u8_eq _ _ (by show m.cpu.stack_pointer - 1 < 256; omega)]
  have hw2 : CPURegs.wrapping_sub8 (m.cpu.stack_pointer - 1) 1 = m.cpu.stack_pointer - 2 :=
    wrapping_sub8_one _ (by omega) (by omega)
  simp only [Option.some_bind, hw2]
  rw [if_neg (by decide)]
  simp only [CPURegs.clear_break_status, CPURegs.set_interrupt_disable_status,
    CPURegs.set_unused_status]
  rw [Machine.push_stack_u8_eq _ _ (by show m.cpu.stack_pointer - 2 < 256; omega)]
  have hw3 : CPURegs.wrapping_sub8 (m.cpu.stack_pointer - 2) 1 = m.cpu.stack_pointer - 3 :=
    wrapping_sub8_one _ (by omega) (by omega)
  simp only [Option.some_bind, hw3]
  refine elim_bind _ _ _ ?_
  intro m4 htick
  have hf := Machine.tick_fields _ _ _ htick
  obtain ⟨hc, hmem, hcpu, hcart⟩ := hf
  rw [Machine.read_memory_u16_rom m4 0xFFFA (by omega) (by omega)]
  simp only [Option.some_bind, Option.elim_some]
  rw [hmem, hcpu, hcart, hc]
  try dsimp only
  refine ⟨?_, ?_, ?_, rfl, rfl, rfl, rfl, rfl, ?_, by decide⟩
  · rw [if_neg (by omega), if_neg (by omega), if_pos rfl]
  · rw [if_neg (by omega), if_pos (by omega)]
  · rw [if_pos (by omega)]
  · rfl

def machine_c6 : Machine :=
  { cpu_memory := fun i =>
      if i = 0x100 then 0xFF else if i = 0x101 then 0x02
      else if i = 0x2FF then 0x34 else if i = 0x200 then 0x12 else 0,
    cpu_cycles := 0,
    ppu := PPUState.new,
    cart := cart_v,
    joypad1 := Joypad.new,
    joypad2 := Joypad.new,
    cpu := ⟨0x100, 0xFD, 0, 0, 0, 0, ⟨false, false, false, false, false, true, false, false⟩⟩ }

theorem C3_nmi_interrupt_service_witness :
    2 < machine_c6.cpu.stack_pointer ∧ machine_c6.cpu.stack_pointer < 256 ∧
    ((machine_c6.interrupt Machine.NMI).elim True fun m' =>
      m'.cpu_memory (0x100 + machine_c6.cpu.stack_pointer) =
        machine_c6.cpu.program_pointer % 65536 / 256 % 256 ∧
      m'.cpu_memory (0x100 + machine_c6.cpu.stack_pointer - 1) =
        machine_c6.cpu.program_pointer % 65536 % 256 ∧
      m'.cpu_memory (0x100 + machine_c6.cpu.stack_pointer - 2) =
        StatusFlags.bits { machine_c6.cpu.status with
          break_flag := false, interrupt_disable := true, unused := true } ∧
      m'.cpu.status.interrupt_disable = true ∧
      m'.cpu.status.break_flag = false ∧
      m'.cpu.status.unused = true ∧
      m'.cpu.program_pointer =
        machine_c6.cart.cpu_read_u8 0xFFFB * 256 + machine_c6.cart.cpu_read_u8 0xFFFA ∧
      m'.cpu.stack_pointer = machine_c6.cpu.stack_pointer - 3 ∧
      m'.cpu_cycles = machine_c6.cpu_cycles + (8 / 3 + 1) ∧
      (8 / 3 + 1 : Nat) = 3) := by
  refine ⟨by decide, by decide, ?_⟩
  exact C3_nmi_interrupt_service machine_c6 (by decide) (by decide)

/-- C6: for a JMP indirect whose operand pointer has low byte $FF, the
high byte of the jump target is read from the start of the same page
(`pointer & 0xFF00`) rather than the next page. -/
theorem C6_jmp_indirect_page_wrap (m : Machine)
    (hpc : m.cpu.program_pointer + 1 ≤ 0x1FFF)
    (hlow : m.cpu_memory (m.cpu.program_pointer &&& 0x7FF) = 0xFF)
    (hptr : m.cpu_memory ((m.cpu.program_pointer + 1) &&& 0x7FF) * 256 + 0xFF ≤ 0x1FFF) :
    (m.jmp_indirect).map (fun mm => mm.cpu.program_pointer) =
      some (m.cpu_memory
              (((m.cpu_memory ((m.cpu.program_pointer + 1) &&& 0x7FF) * 256 + 0xFF) &&& 0xFF00)
                &&& 0x7FF) * 256 +
            m.cpu_memory ((m.cpu_memory ((m.cpu.program_pointer + 1) &&& 0x7FF) * 256 + 0xFF)
                &&& 0x7FF)) := by
  unfold Machine.jmp_indirect Machine.get_opcode_data_address_indirect
  rw [Machine.read_memory_u8_ram m _ (by omega)]
  simp only [Option.bind_eq_bind, Option.some_bind]
  rw [Machine.read_memory_u8_ram m _ (by omega)]
  simp only [Option.some_bind, hlow, if_true]
  rw [Machine.read_memory_u8_ram m _ hptr]
  simp only [Option.some_bind]
  rw [Machine.read_memory_u8_ram m _ (le_trans Nat.and_le_left hptr)]
  simp only [Option.some_bind, Option.map_some']

theorem C6_jmp_indirect_page_wrap_witness :
    machine_c6.cpu.program_pointer + 1 ≤ 0x1FFF ∧
    machine_c6.cpu_memory (machine_c6.cpu.program_pointer &&& 0x7FF) = 0xFF ∧
    machine_c6.cpu_memory ((machine_c6.cpu.program_pointer + 1) &&& 0x7FF) * 256 + 0xFF
      ≤ 0x1FFF ∧
    (machine_c6.jmp_indirect).map (fun mm => mm.cpu.program_pointer) = some 0x1234 := by
  refine ⟨by decide, by decide, by decide, ?_⟩
  have h := C6_jmp_indirect_page_wrap machine_c6 (by decide) (by decide) (by decide)
  simpa [machine_c6] using h

end Dendynes
